import Mathlib

/-!
Verification of the header-normalization and document-assembly pipeline of the
Client Practical Reviewer app (src/app.py).

The embedding works over `List Char` (Python strings are sequences of code
points).  The regex subset actually used by `_ensure_section_headers` is
embedded as a small backtracking matcher (`RE.run`) returning the list of
possible remainders in the backtracking priority order of Python, so that
`re.subn(pattern, repl, text, count=1, flags=re.IGNORECASE)` is modelled by
`subnOnce` (leftmost position, first result at that position).  Case folding
covers ASCII letters plus the accented letters appearing in the patterns.
The external generative service is passed in as a function argument and the
number of calls made to it is returned alongside the text.  The Word document
produced by `create_review_document` is modelled as the list of paragraphs
(each a styled list of runs) that the python-docx calls append, in order.
-/

set_option maxRecDepth 8000

namespace CPReviewer

/-! ### Python string helpers -/

/-- Python `str.isspace` characters relevant here (ASCII whitespace). -/
def pyIsSpace (c : Char) : Bool :=
  c == ' ' || c == '\t' || c == '\n' || c == '\r' || c == '\x0b' || c == '\x0c'

/-- Python `str.strip()`. -/
def pyStrip (l : List Char) : List Char :=
  ((l.dropWhile pyIsSpace).reverse.dropWhile pyIsSpace).reverse

/-- Helper for `splitLines`. -/
def splitLinesAux : List Char → List Char → List (List Char)
  | [], acc => [acc.reverse]
  | c :: rest, acc =>
    if c == '\n' then acc.reverse :: splitLinesAux rest []
    else splitLinesAux rest (c :: acc)

/-- Python `text.split('\n')` (keeps empty pieces; `"".split` gives `[""]`). -/
def splitLines (l : List Char) : List (List Char) :=
  splitLinesAux l []

/-- Boolean list-prefix test (Python `str.startswith`). -/
def isPre : List Char → List Char → Bool
  | [], _ => true
  | _ :: _, [] => false
  | a :: as_, b :: bs => a == b && isPre as_ bs

/-- Python `needle in hay` (substring test). -/
def containsSub (n : List Char) (h : List Char) : Bool :=
  match h with
  | [] => isPre n []
  | _ :: rest => isPre n h || containsSub n rest

/-- Number of positions of `h` at which `n` occurs as a substring. -/
def countOccs (n : List Char) (h : List Char) : Nat :=
  match h with
  | [] => if isPre n [] then 1 else 0
  | _ :: rest => if isPre n h then 1 + countOccs n rest else countOccs n rest

/-- Python `line.split(':', 1)[1]` (everything after the first colon). -/
def afterFirstColon : List Char → List Char
  | [] => []
  | c :: rest => if c == ':' then rest else afterFirstColon rest

/-- Python `content.replace("**", "")` (leftmost, non-overlapping). -/
def removeBold : List Char → List Char
  | [] => []
  | '*' :: '*' :: rest => removeBold rest
  | c :: rest => c :: removeBold rest

/-- True when the list contains no `'*'` character. -/
def starFree (l : List Char) : Bool :=
  l.all (fun c => !(c == '*'))

/-! ### Regex engine for the subset used by `_ensure_section_headers` -/

/-- Case swap covering ASCII letters and the accented letters in the patterns,
so that `re.IGNORECASE` literal matching is modelled by accepting a character
or its case-swapped form. -/
def swapCase (c : Char) : Char :=
  if 65 ≤ c.toNat ∧ c.toNat ≤ 90 then Char.ofNat (c.toNat + 32)
  else if 97 ≤ c.toNat ∧ c.toNat ≤ 122 then Char.ofNat (c.toNat - 32)
  else if c == 'é' then 'É'
  else if c == 'É' then 'é'
  else if c == 'à' then 'À'
  else if c == 'À' then 'à'
  else if c == 'è' then 'È'
  else if c == 'È' then 'è'
  else c

/-- Regular-expression subset used by the header patterns: literals (as
character predicates), concatenation, alternation, greedy `?`, and the lazy
quantifiers `.*?` / `.+?` over a character class. -/
inductive RE where
  | eps : RE
  | ch (p : Char → Bool) : RE
  | seq (a b : RE) : RE
  | alt (a b : RE) : RE
  | opt (a : RE) : RE
  | lazyMany (p : Char → Bool) : RE
  | lazySome (p : Char → Bool) : RE

/-- Remainders of a lazy `p*?` in priority order: consume as little as
possible first. -/
def lazyTails (p : Char → Bool) : List Char → List (List Char)
  | [] => [[]]
  | c :: rest => (c :: rest) :: (if p c then lazyTails p rest else [])

/-- All remainders after matching `r` against a prefix of the input, in
the backtracking priority order of Python (first element = the match Python picks
at this position). -/
def RE.run : RE → List Char → List (List Char)
  | .eps, s => [s]
  | .ch _, [] => []
  | .ch p, c :: rest => if p c then [rest] else []
  | .seq a b, s => (RE.run a s).flatMap (fun t => RE.run b t)
  | .alt a b, s => RE.run a s ++ RE.run b s
  | .opt a, s => RE.run a s ++ [s]
  | .lazyMany p, s => lazyTails p s
  | .lazySome _, [] => []
  | .lazySome p, c :: rest => if p c then lazyTails p rest else []

/-- Case-insensitive literal character. -/
def ciC (a : Char) : RE :=
  RE.ch (fun c => c == a || c == swapCase a)

/-- Literal `\*\*` (case-insensitivity is irrelevant for `*`). -/
def star2 : RE :=
  RE.seq (RE.ch (fun c => c == '*')) (RE.ch (fun c => c == '*'))

/-- Case-insensitive literal string. -/
def lits (s : String) : RE :=
  s.data.foldr (fun c r => RE.seq (ciC c) r) RE.eps

/-- Character class with two letters, e.g. `[ée]` (case-insensitive). -/
def cls2 (a b : Char) : RE :=
  RE.ch (fun c => c == a || c == swapCase a || c == b || c == swapCase b)

/-- Python `.` without DOTALL: any character except newline. -/
def anyChar : RE :=
  RE.ch (fun c => !(c == '\n'))

/-- Concatenation of a list of regexes. -/
def pseq (l : List RE) : RE :=
  l.foldr RE.seq RE.eps

/-- Alternation of a non-empty list of regexes (first alternative preferred). -/
def palt : List RE → RE
  | [] => RE.ch (fun _ => false)
  | [r] => r
  | r :: rest => RE.alt r (palt rest)

/-! The ten patterns of `header_fixes`, transcribed from the source. -/

/-- Pattern 1 of the WellDone header. -/
def pat11 : RE :=
  RE.seq star2 (pseq [lits "Ce que ", palt [lits "vous avez", lits "tu as"], lits " bien fait", star2])

/-- Pattern 2 of the WellDone header. -/
def pat12 : RE :=
  RE.seq star2 (pseq [lits "Wat ", palt [lits "je", lits "u"], lits " goed ",
    RE.opt (palt [lits "hebt ", lits "heeft "]), lits "gedaan", star2])

/-- Pattern 3 of the WellDone header. -/
def pat13 : RE :=
  RE.seq star2 (pseq [palt
    [pseq [lits "Point", RE.opt (ciC 's'), lits " fort", RE.opt (ciC 's')],
     pseq [lits "Point", RE.opt (ciC 's'), lits " positif", RE.opt (ciC 's')]], star2])

/-- Pattern 4 of the WellDone header. -/
def pat14 : RE :=
  RE.seq star2 (pseq [lits "Wat ging er goed", star2])

/-- Pattern 1 of the Improve header. -/
def pat21 : RE :=
  RE.seq star2 (pseq [lits "Ce que ", palt [lits "vous pourriez", lits "tu pourrais"],
    lits " faire diff", cls2 'é' 'e', lits "remment",
    RE.lazySome (fun c => !(c == '\n')), star2])

/-- Pattern 2 of the Improve header. -/
def pat22 : RE :=
  RE.seq star2 (pseq [lits "Wat ", palt [lits "je", lits "u"], lits " de volgende keer anders ",
    RE.opt (pseq [lits "zou", RE.opt (lits "dt"), lits " "]), lits "kunnen doen", star2])

/-- Pattern 3 of the Improve header. -/
def pat23 : RE :=
  RE.seq star2 (pseq [palt
    [pseq [lits "Point", RE.opt (ciC 's'), lits " ", cls2 'à' 'a', lits " am", cls2 'é' 'e', lits "liorer"],
     pseq [lits "Axe", RE.opt (ciC 's'), lits " d", anyChar, lits "am", cls2 'é' 'e', lits "lioration"]],
    RE.lazyMany (fun c => !(c == '\n')), star2])

/-- Pattern 4 of the Improve header. -/
def pat24 : RE :=
  RE.seq star2 (pseq [lits "Wat ", palt [lits "je", lits "u"], lits " anders ",
    RE.opt (pseq [lits "zou", RE.opt (lits "dt"), lits " "]), lits "kunnen doen", star2])

/-- Pattern 1 of the Overall header. -/
def pat31 : RE :=
  RE.seq star2 (pseq [palt
    [pseq [lits "En r", cls2 'é' 'e', lits "sum", cls2 'é' 'e'],
     lits "Conclusion", lits "Bilan",
     pseq [lits "Dans l", anyChar, lits "ensemble"], lits "Globalement"], star2])

/-- Pattern 2 of the Overall header. -/
def pat32 : RE :=
  RE.seq star2 (pseq [palt
    [lits "Algeheel", lits "Over het geheel", lits "Samenvatting", lits "Algemeen", lits "Totaal"],
    star2])

/-! ### The header normalizer `_ensure_section_headers` -/

/-- The three canonical header strings. -/
def hdrWell : List Char := "**What you did well**".data

/-- Canonical Improve header. -/
def hdrImprove : List Char := "**What you could do differently next time**".data

/-- Canonical Overall header. -/
def hdrOverall : List Char := "**Overall**".data

/-- One entry of `header_fixes`: the canonical English header plus the ordered
translated-header patterns. -/
structure HeaderFix where
  english : List Char
  patterns : List RE

/-- WellDone fix. -/
def fix1 : HeaderFix := ⟨hdrWell, [pat11, pat12, pat13, pat14]⟩

/-- Improve fix. -/
def fix2 : HeaderFix := ⟨hdrImprove, [pat21, pat22, pat23, pat24]⟩

/-- Overall fix. -/
def fix3 : HeaderFix := ⟨hdrOverall, [pat31, pat32]⟩

/-- The `header_fixes` table, in source order. -/
def header_fixes : List HeaderFix := [fix1, fix2, fix3]

/-- Model of `re.subn(pattern, repl, s, count=1)`: scan positions left to
right; at the first position where the pattern matches, splice in `repl` for
the matched span and report one substitution. -/
def subnOnce (r : RE) (repl : List Char) (s : List Char) : List Char × Nat :=
  match s with
  | [] =>
    match (RE.run r []).head? with
    | some rem => (repl ++ rem, 1)
    | none => ([], 0)
  | c :: rest =>
    match (RE.run r (c :: rest)).head? with
    | some rem => (repl ++ rem, 1)
    | none => (c :: (subnOnce r repl rest).1, (subnOnce r repl rest).2)

/-- Inner loop of `_ensure_section_headers`: try each pattern in order,
stopping after the first one that substitutes. -/
def tryPatterns (eng : List Char) : List RE → List Char → List Char
  | [], t => t
  | p :: ps, t =>
    let r := subnOnce p eng t
    if r.2 > 0 then r.1 else tryPatterns eng ps r.1

/-- One iteration of the `for fix in header_fixes` loop. -/
def applyFix (t : List Char) (f : HeaderFix) : List Char :=
  if containsSub f.english t then t else tryPatterns f.english f.patterns t

/-- `_ensure_section_headers` from src/app.py. -/
def ensure_section_headers (t : List Char) : List Char :=
  header_fixes.foldl applyFix t

/-- A header is settled in `t` when its canonical text is present or none of
its patterns matches anywhere in `t` (so a further pass leaves it alone). -/
def headerSettled (f : HeaderFix) (t : List Char) : Bool :=
  containsSub f.english t || f.patterns.all (fun p => (subnOnce p f.english t).2 == 0)

/-- `t` contains a recognizable (translated) variant of the header: some
pattern of the fix matches somewhere in `t`. -/
def hasVariant (f : HeaderFix) (t : List Char) : Bool :=
  f.patterns.any (fun p => (subnOnce p f.english t).2 == 1)

/-! ### The translator `translate_feedback` -/

/-- French translation instruction (source lines 178-200). -/
def french_instruction : String :=
  "You are translating a dog training assessment feedback document from English to French.\n\nCRITICAL - DO NOT TRANSLATE THESE SECTION HEADERS. Keep them EXACTLY as-is in English:\n- **What you did well**\n- **What you could do differently next time**\n- **Overall**\nOnly translate the content underneath each header, not the headers themselves.\n\nFRENCH DICTIONARY - Use these specific terms:\n- Behavior consultant = consultant(e) en comportement canin\n- Separation anxiety = anxiété de séparation\n- Dog trainer = Consultant(e) en comportement canin\n- Dog training = Éducation canine\n\nTRANSLATION RULES:\n1. Do NOT literally translate idioms - use the French equivalent instead\n2. Keep these English expressions as-is: \"door is a bore\", \"FOMO\", \"hyper-attachement\", \"push-drop\"\n3. Use modern, natural French - avoid antiquated expressions\n4. Maintain the warm, conversational, colleague-to-colleague tone\n5. Keep the educational context of dog training\n6. Preserve the exact structure (bullet points, sections) of the original\n\nTranslate the following feedback to French:"

/-- Dutch translation instruction (source lines 203-224). -/
def dutch_instruction : String :=
  "You are translating a dog training assessment feedback document from English to Dutch.\n\nCRITICAL - DO NOT TRANSLATE THESE SECTION HEADERS. Keep them EXACTLY as-is in English:\n- **What you did well**\n- **What you could do differently next time**\n- **Overall**\nOnly translate the content underneath each header, not the headers themselves.\n\nDUTCH TRANSLATION RULES:\n1. Keep these English expressions as-is: \"door is a bore\", \"FOMO\", \"push-drop\"\n2. Use \"je/jij\" (informal) not \"u\" (formal) - keep it warm and collegial\n3. Avoid literal translations of English idioms - use natural Dutch equivalents\n4. Watch word order in subordinate clauses (verb goes to end)\n5. Use natural Dutch compound words where appropriate\n6. Avoid anglicisms where good Dutch alternatives exist (e.g., use \"terugkoppeling\" not \"feedback\" if it fits naturally)\n7. Keep the warm, conversational, colleague-to-colleague tone\n8. Use modern Dutch - avoid stiff or formal phrasing\n9. \"Separation anxiety\" = \"verlatingsangst\" or \"scheidingsangst\"\n10. Be careful with false friends (e.g., \"eventually\" ≠ \"eventueel\")\n11. Preserve the exact structure (bullet points, sections) of the original\n\nTranslate the following feedback to Dutch:"

/-- `translate_feedback` from src/app.py.  The external generative service is
the function `svc` (from request content to response text); the second
component of the result counts how many service calls were made. -/
def translate_feedback (svc : List Char → List Char) (english_text : List Char)
    (target_language : List Char) : List Char × Nat :=
  if target_language = "French".data then
    (ensure_section_headers (svc (french_instruction.data ++ "\n\n".data ++ english_text)), 1)
  else if target_language = "Dutch".data then
    (ensure_section_headers (svc (dutch_instruction.data ++ "\n\n".data ++ english_text)), 1)
  else
    (english_text, 0)

/-! ### The document assembler `create_review_document` -/

/-- The two colors used by the document. -/
inductive DocColor where
  | red : DocColor
  | purple : DocColor
deriving DecidableEq

/-- Paragraph styles used by the document. -/
inductive ParaStyle where
  | normal : ParaStyle
  | listBullet : ParaStyle
deriving DecidableEq

/-- One styled run inside a paragraph. -/
structure DocRun where
  text : List Char
  bold : Bool
  font : String
  size : Nat
  color : DocColor
deriving DecidableEq

/-- One paragraph of the document (style, alignment, runs). -/
structure DocPara where
  style : ParaStyle
  align : Option Nat
  runs : List DocRun
deriving DecidableEq

/-- Font name constant from the source. -/
def FONT_NAME : String := "Lato"

/-- Title size in points. -/
def TITLE_SIZE : Nat := 18

/-- Heading size in points. -/
def HEADING_SIZE : Nat := 11

/-- Body size in points. -/
def BODY_SIZE : Nat := 11

/-- A red bold section heading paragraph. -/
def headingPara (t : String) : DocPara :=
  ⟨ParaStyle.normal, none, [⟨t.data, true, FONT_NAME, HEADING_SIZE, DocColor.red⟩]⟩

/-- A purple body paragraph. -/
def bodyPara (t : List Char) : DocPara :=
  ⟨ParaStyle.normal, none, [⟨t, false, FONT_NAME, BODY_SIZE, DocColor.purple⟩]⟩

/-- A purple bulleted paragraph (style "List Bullet"). -/
def bulletPara (t : List Char) : DocPara :=
  ⟨ParaStyle.listBullet, none, [⟨t, false, FONT_NAME, BODY_SIZE, DocColor.purple⟩]⟩

/-- An empty spacer paragraph (`doc.add_paragraph()`). -/
def spacerPara : DocPara :=
  ⟨ParaStyle.normal, none, []⟩

/-- A metadata line: bold red label run then plain purple value run. -/
def metaPara (label : String) (value : List Char) : DocPara :=
  ⟨ParaStyle.normal, none,
    [⟨label.data, true, FONT_NAME, HEADING_SIZE, DocColor.red⟩,
     ⟨value, false, FONT_NAME, BODY_SIZE, DocColor.purple⟩]⟩

/-- The masthead paragraph (centered). -/
def mastheadPara : DocPara :=
  ⟨ParaStyle.normal, some 1, [⟨"SA PRO TRAINER ASSESSMENT".data, true, FONT_NAME, 10, DocColor.red⟩]⟩

/-- The title paragraph (centered). -/
def titlePara : DocPara :=
  ⟨ParaStyle.normal, some 1, [⟨"CLIENT PRACTICAL REVIEW".data, true, FONT_NAME, TITLE_SIZE, DocColor.red⟩]⟩

/-- `current_section` state of the line loop. -/
inductive Sect where
  | start : Sect
  | well : Sect
  | improve : Sect
  | overall : Sect
deriving DecidableEq

/-- Python test for the three bullet markers used by `line.startswith` in the source. -/
def isBulletStart (l : List Char) : Bool :=
  isPre "- ".data l || isPre "• ".data l || isPre "* ".data l

/-- The body of the `for line in lines` loop of `create_review_document`:
paragraphs emitted for this line, and the updated `current_section`. -/
def processLine (raw : List Char) (sec : Sect) : List DocPara × Sect :=
  let line := pyStrip raw
  if line.isEmpty then ([], sec)
  else if containsSub "**What you did well**".data line
       || containsSub "What you did well".data line then
    ([headingPara "What you did well"], Sect.well)
  else if containsSub "**What you could do differently".data line
       || containsSub "What you could do differently".data line then
    ([spacerPara, headingPara "What you could do differently next time"], Sect.improve)
  else if containsSub "**Overall**".data line || isPre "Overall".data line then
    if line.contains ':' then
      let content := pyStrip (afterFirstColon line)
      if content.isEmpty then
        ([spacerPara, headingPara "Overall"], Sect.overall)
      else
        ([spacerPara, headingPara "Overall", bodyPara content], Sect.overall)
    else
      ([spacerPara, headingPara "Overall"], Sect.overall)
  else if isBulletStart line then
    ([bulletPara (removeBold (pyStrip (line.drop 2)))], sec)
  else if sec == Sect.overall && !(isPre "#".data line) then
    ([bodyPara (removeBold line)], sec)
  else
    ([], sec)

/-- The full line loop. -/
def processLines : List (List Char) → Sect → List DocPara
  | [], _ => []
  | l :: ls, sec =>
    (processLine l sec).1 ++ processLines ls (processLine l sec).2

/-- The fixed paragraphs emitted before the feedback body: masthead, title,
spacer, the four metadata lines, spacer. -/
def fixedHead (student_name review_date reviewer_name status : List Char) : List DocPara :=
  [mastheadPara, titlePara, spacerPara,
   metaPara "Name: " student_name,
   metaPara "Date: " review_date,
   metaPara "Reviewer: " reviewer_name,
   metaPara "Status: " status,
   spacerPara]

/-- `create_review_document` from src/app.py, as the list of paragraphs
appended to the document, in order. -/
def create_review_document (student_name review_date reviewer_name status feedback_text : List Char) :
    List DocPara :=
  fixedHead student_name review_date reviewer_name status ++
    processLines (splitLines feedback_text) Sect.start

/-! ### Concrete inputs used in counterexamples and witnesses -/

/-- A concrete recognizable French variant of the WellDone header (an instance
of pattern 1 of `fix1`). -/
def varWell : List Char := "**Ce que vous avez bien fait**".data

/-- A concrete recognizable French variant of the Improve header (an instance
of pattern 1 of `fix2`). -/
def varImprove : List Char := "**Ce que vous pourriez faire différemment la prochaine fois**".data

/-- A concrete recognizable French variant of the Overall header (an instance
of pattern 1 of `fix3`). -/
def varOverall : List Char := "**Conclusion**".data

/-- Input containing a recognizable variant of each of the three headers, on
which normalization loses the WellDone canonical header: the lazy `.+?` of the
Improve pattern swallows the freshly substituted `**What you did well**`. -/
def cex1 : List Char :=
  "**Ce que vous pourriez faire différemment**Ce que vous avez bien fait**\n**Conclusion**".data

/-- Input on which `_ensure_section_headers` is not idempotent: the first pass
consumes the already-canonical `**What you did well**` (inside the Improve
pattern lazy match) and leaves a French WellDone variant behind, which only
the second pass then rewrites. -/
def cex2 : List Char :=
  "**Ce que vous pourriez faire différemment**What you did well****Ce que vous avez bien fait**".data

/-- A clean Dutch variant of the WellDone header (an instance of pattern 2 of
`fix1`). -/
def varWellNl : List Char := "**Wat je goed hebt gedaan**".data

/-- A clean French variant of the WellDone header (an instance of pattern 3 of
`fix1`). -/
def varWellPts : List Char := "**Points forts**".data

/-- A clean Dutch variant of the WellDone header (an instance of pattern 4 of
`fix1`). -/
def varWellNl2 : List Char := "**Wat ging er goed**".data

/-- A clean Dutch variant of the Improve header (an instance of pattern 2 of
`fix2`). -/
def varImproveNl : List Char := "**Wat je de volgende keer anders zou kunnen doen**".data

/-- A clean French variant of the Improve header (an instance of pattern 3 of
`fix2`). -/
def varImprovePts : List Char := "**Points à améliorer**".data

/-- A clean Dutch variant of the Improve header (an instance of pattern 4 of
`fix2`). -/
def varImproveNl2 : List Char := "**Wat je anders zou kunnen doen**".data

/-- A second clean French variant of the Overall header (an instance of
pattern 1 of `fix3`). -/
def varOverallBilan : List Char := "**Bilan**".data

/-- A clean Dutch variant of the Overall header (an instance of pattern 2 of
`fix3`). -/
def varOverallNl : List Char := "**Algeheel**".data

/-- Representative clean variants of the WellDone header: one instance of each
of the four patterns of `fix1`. -/
def wellVariants : List (List Char) := [varWell, varWellNl, varWellPts, varWellNl2]

/-- Representative clean variants of the Improve header: one instance of each
of the four patterns of `fix2`. -/
def improveVariants : List (List Char) := [varImprove, varImproveNl, varImprovePts, varImproveNl2]

/-- Representative clean variants of the Overall header: instances of both
patterns of `fix3`, including two alternatives of pattern 1. -/
def overallVariants : List (List Char) := [varOverall, varOverallBilan, varOverallNl]

/-- All representative variants of all three headers. -/
def allVariants : List (List Char) := wellVariants ++ improveVariants ++ overallVariants

/-- An input containing one clean variant of each header (in order): arbitrary
star-free text around the three variants, each variant followed by a newline.
`sepInput hdrWell hdrImprove hdrOverall p1 q2 q3 q4` is the corresponding
fully normalized text. -/
def sepInput (u1 u2 u3 p1 q2 q3 q4 : List Char) : List Char :=
  p1 ++ (u1 ++ ('\n' :: (q2 ++ (u2 ++ ('\n' :: (q3 ++ (u3 ++ ('\n' :: q4))))))))

/-!
## Theorems

Helper lemmas first, then one theorem per claim (with witnesses for the
hypothesis-bearing ones).
-/

/-- If `re.subn` reports zero substitutions, the text is unchanged. -/
theorem subnOnce_zero (r : RE) (repl : List Char) :
    ∀ s : List Char, (subnOnce r repl s).2 = 0 → (subnOnce r repl s).1 = s := by
  intro s
  induction s with
  | nil =>
    intro h
    rw [subnOnce] at h ⊢
    cases hh : (RE.run r []).head? with
    | some rem => simp [hh] at h
    | none => simp [hh]
  | cons c rest ih =>
    intro h
    rw [subnOnce] at h ⊢
    cases hh : (RE.run r (c :: rest)).head? with
    | some rem => simp [hh] at h
    | none =>
      simp only [hh] at h ⊢
      rw [ih h]

/-- If no pattern in the list matches, `tryPatterns` returns the text
unchanged. -/
theorem tryPatterns_nomatch (eng : List Char) :
    ∀ (ps : List RE) (t : List Char), (∀ p ∈ ps, (subnOnce p eng t).2 = 0) →
      tryPatterns eng ps t = t
  | [], _, _ => rfl
  | p :: ps, t, h => by
    have h0 : (subnOnce p eng t).2 = 0 := h p (List.mem_cons_self p ps)
    have h1 : (subnOnce p eng t).1 = t := subnOnce_zero p eng t h0
    simp only [tryPatterns, h0, h1, gt_iff_lt, Nat.lt_irrefl, if_false]
    exact tryPatterns_nomatch eng ps t (fun q hq => h q (List.mem_cons_of_mem p hq))

/-- A settled header is left untouched by its pass of the loop. -/
theorem applyFix_settled (f : HeaderFix) (t : List Char)
    (h : headerSettled f t = true) : applyFix t f = t := by
  rw [applyFix]
  cases hc : containsSub f.english t with
  | true => simp
  | false =>
    simp only [Bool.false_eq_true, if_false]
    apply tryPatterns_nomatch
    intro p hp
    rw [headerSettled, hc, Bool.false_or, List.all_eq_true] at h
    have := h p hp
    simpa using this

/-- A needle starting with `'*'` is not a prefix of text starting with any
other character. -/
theorem isPre_star_cons_false (n : List Char) (hn : n.head? = some '*')
    (c : Char) (hc : ¬ c = '*') (s : List Char) : isPre n (c :: s) = false := by
  cases n with
  | nil => simp at hn
  | cons x m =>
    rw [List.head?_cons, Option.some.injEq] at hn
    subst hn
    rw [isPre]
    have hb : ('*' == c) = false := by
      rw [beq_eq_false_iff_ne]
      exact fun h => hc h.symm
    rw [hb, Bool.false_and]

/-- Scanning across a star-free region cannot find a `'*'`-headed needle. -/
theorem containsSub_append_starfree (n : List Char) (hn : n.head? = some '*')
    (a b : List Char) (ha : starFree a = true) :
    containsSub n (a ++ b) = containsSub n b := by
  induction a with
  | nil => rfl
  | cons c a' ih =>
    rw [starFree, List.all_cons, Bool.and_eq_true] at ha
    obtain ⟨hc, ha'⟩ := ha
    have hcs : ¬ c = '*' := by simpa using hc
    rw [List.cons_append]
    simp only [containsSub]
    rw [isPre_star_cons_false n hn c hcs, Bool.false_or]
    exact ih ha'

/-- Counting across a star-free region finds no occurrence of a `'*'`-headed
needle. -/
theorem countOccs_append_starfree (n : List Char) (hn : n.head? = some '*')
    (a b : List Char) (ha : starFree a = true) :
    countOccs n (a ++ b) = countOccs n b := by
  induction a with
  | nil => rfl
  | cons c a' ih =>
    rw [starFree, List.all_cons, Bool.and_eq_true] at ha
    obtain ⟨hc, ha'⟩ := ha
    have hcs : ¬ c = '*' := by simpa using hc
    rw [List.cons_append]
    simp only [countOccs]
    rw [isPre_star_cons_false n hn c hcs]
    simp only [Bool.false_eq_true, if_false]
    exact ih ha'

/-- A prefix of a star-free text is itself star-free. -/
theorem isPre_starFree (n : List Char) : ∀ h : List Char,
    isPre n h = true → starFree h = true → starFree n = true := by
  induction n with
  | nil => intro h _ _; rfl
  | cons c n' ih =>
    intro h hp hh
    cases h with
    | nil => simp [isPre] at hp
    | cons d h' =>
      rw [isPre, Bool.and_eq_true, beq_iff_eq] at hp
      obtain ⟨hcd, hp'⟩ := hp
      rw [starFree, List.all_cons, Bool.and_eq_true] at hh
      obtain ⟨hd, hh'⟩ := hh
      subst hcd
      rw [starFree, List.all_cons, Bool.and_eq_true]
      exact ⟨hd, ih h' hp' hh'⟩

/-- A needle containing `'*'` does not occur in a star-free text. -/
theorem containsSub_starfree_false (n : List Char) (hn : '*' ∈ n) :
    ∀ h : List Char, starFree h = true → containsSub n h = false := by
  intro h
  induction h with
  | nil =>
    intro _
    cases n with
    | nil => simp at hn
    | cons c m => rfl
  | cons c h' ih =>
    intro hh
    simp only [containsSub]
    have hp : isPre n (c :: h') = false := by
      cases hq : isPre n (c :: h') with
      | false => rfl
      | true =>
        have hsf := isPre_starFree n (c :: h') hq hh
        rw [starFree, List.all_eq_true] at hsf
        have := hsf '*' hn
        simp at this
    rw [hp, Bool.false_or]
    rw [starFree, List.all_cons, Bool.and_eq_true] at hh
    exact ih hh.2

/-- Counting version of `containsSub_starfree_false`. -/
theorem countOccs_starfree_zero (n : List Char) (hn : '*' ∈ n) :
    ∀ h : List Char, starFree h = true → countOccs n h = 0 := by
  intro h
  induction h with
  | nil =>
    intro _
    cases n with
    | nil => simp at hn
    | cons c m => rfl
  | cons c h' ih =>
    intro hh
    simp only [countOccs]
    have hp : isPre n (c :: h') = false := by
      cases hq : isPre n (c :: h') with
      | false => rfl
      | true =>
        have hsf := isPre_starFree n (c :: h') hq hh
        rw [starFree, List.all_eq_true] at hsf
        have := hsf '*' hn
        simp at this
    rw [hp]
    simp only [Bool.false_eq_true, if_false]
    rw [starFree, List.all_cons, Bool.and_eq_true] at hh
    exact ih hh.2

/-- A pattern of the form `\*\* ...` fails immediately at any position whose
first character is not `'*'`. -/
theorem run_seq_star2_nostar (rest : RE) (c : Char) (hc : ¬ c = '*') (s : List Char) :
    RE.run (RE.seq star2 rest) (c :: s) = [] := by
  have hb : (c == '*') = false := by rw [beq_eq_false_iff_ne]; exact hc
  simp [RE.run, star2, hb]

/-- `re.subn` scanning across a star-free region keeps it unchanged, for a
pattern that fails on any non-`'*'` head. -/
theorem subnOnce_append_starfree (r : RE) (repl : List Char)
    (hfail : ∀ c s, ¬ c = '*' → RE.run r (c :: s) = [])
    (a b : List Char) (ha : starFree a = true) :
    subnOnce r repl (a ++ b) =
      (a ++ (subnOnce r repl b).1, (subnOnce r repl b).2) := by
  induction a with
  | nil => rfl
  | cons c a' ih =>
    rw [starFree, List.all_cons, Bool.and_eq_true] at ha
    obtain ⟨hc, ha'⟩ := ha
    have hcs : ¬ c = '*' := by simpa using hc
    rw [List.cons_append, subnOnce, hfail c _ hcs]
    simp only [List.head?_nil]
    rw [ih ha']
    simp

/-- Head-failure for the first WellDone pattern. -/
theorem pat11_headfail : ∀ (c : Char) (s : List Char), ¬ c = '*' →
    RE.run pat11 (c :: s) = [] :=
  fun c s hc => run_seq_star2_nostar _ c hc s

/-- Head-failure for the second WellDone pattern. -/
theorem pat12_headfail : ∀ (c : Char) (s : List Char), ¬ c = '*' →
    RE.run pat12 (c :: s) = [] :=
  fun c s hc => run_seq_star2_nostar _ c hc s

/-- Head-failure for the third WellDone pattern. -/
theorem pat13_headfail : ∀ (c : Char) (s : List Char), ¬ c = '*' →
    RE.run pat13 (c :: s) = [] :=
  fun c s hc => run_seq_star2_nostar _ c hc s

/-- Head-failure for the fourth WellDone pattern. -/
theorem pat14_headfail : ∀ (c : Char) (s : List Char), ¬ c = '*' →
    RE.run pat14 (c :: s) = [] :=
  fun c s hc => run_seq_star2_nostar _ c hc s

/-- Head-failure for the first Improve pattern. -/
theorem pat21_headfail : ∀ (c : Char) (s : List Char), ¬ c = '*' →
    RE.run pat21 (c :: s) = [] :=
  fun c s hc => run_seq_star2_nostar _ c hc s

/-- Head-failure for the second Improve pattern. -/
theorem pat22_headfail : ∀ (c : Char) (s : List Char), ¬ c = '*' →
    RE.run pat22 (c :: s) = [] :=
  fun c s hc => run_seq_star2_nostar _ c hc s

/-- Head-failure for the third Improve pattern. -/
theorem pat23_headfail : ∀ (c : Char) (s : List Char), ¬ c = '*' →
    RE.run pat23 (c :: s) = [] :=
  fun c s hc => run_seq_star2_nostar _ c hc s

/-- Head-failure for the fourth Improve pattern. -/
theorem pat24_headfail : ∀ (c : Char) (s : List Char), ¬ c = '*' →
    RE.run pat24 (c :: s) = [] :=
  fun c s hc => run_seq_star2_nostar _ c hc s

/-- Head-failure for the first Overall pattern. -/
theorem pat31_headfail : ∀ (c : Char) (s : List Char), ¬ c = '*' →
    RE.run pat31 (c :: s) = [] :=
  fun c s hc => run_seq_star2_nostar _ c hc s

/-- Head-failure for the second Overall pattern. -/
theorem pat32_headfail : ∀ (c : Char) (s : List Char), ¬ c = '*' →
    RE.run pat32 (c :: s) = [] :=
  fun c s hc => run_seq_star2_nostar _ c hc s

theorem run_ciC_self (c : Char) (r : List Char) : RE.run (ciC c) (c :: r) = [r] := by
  simp [ciC, RE.run]

theorem run_ciC_fail {a c : Char} (h1 : ¬ c = a) (h2 : ¬ c = swapCase a) (r : List Char) :
    RE.run (ciC a) (c :: r) = [] := by
  have b1 : (c == a) = false := beq_eq_false_iff_ne.mpr h1
  have b2 : (c == swapCase a) = false := beq_eq_false_iff_ne.mpr h2
  simp [ciC, RE.run, b1, b2]

theorem run_star2_self (r : List Char) : RE.run star2 ('*' :: '*' :: r) = [r] := by
  simp [star2, RE.run]

theorem run_seq_single {a : RE} (b : RE) {s t : List Char} (h : RE.run a s = [t]) :
    RE.run (RE.seq a b) s = RE.run b t := by
  show (RE.run a s).flatMap _ = _
  rw [h]
  simp

theorem run_seq_fail {a : RE} (b : RE) {s : List Char} (h : RE.run a s = []) :
    RE.run (RE.seq a b) s = [] := by
  show (RE.run a s).flatMap _ = _
  rw [h]
  rfl

theorem run_seq_pair {a : RE} (b : RE) {s t1 t2 : List Char} (h : RE.run a s = [t1, t2])
    (h2 : RE.run b t2 = []) : RE.run (RE.seq a b) s = RE.run b t1 := by
  show (RE.run a s).flatMap _ = _
  rw [h]
  simp [h2]

theorem run_alt_split (a b : RE) (s : List Char) :
    RE.run (RE.alt a b) s = RE.run a s ++ RE.run b s := rfl

theorem run_litsList_self : ∀ (cs : List Char) (k : RE) (r : List Char),
    RE.run (cs.foldr (fun c a => RE.seq (ciC c) a) k) (cs ++ r) = RE.run k r
  | [], k, r => by simp
  | c :: cs, k, r => by
    have h1 : RE.run (ciC c) (c :: (cs ++ r)) = [cs ++ r] := run_ciC_self c (cs ++ r)
    calc RE.run ((c :: cs).foldr (fun c a => RE.seq (ciC c) a) k) ((c :: cs) ++ r)
        = (RE.run (ciC c) (c :: (cs ++ r))).flatMap
            (fun t => RE.run (cs.foldr (fun c a => RE.seq (ciC c) a) k) t) := rfl
      _ = RE.run (cs.foldr (fun c a => RE.seq (ciC c) a) k) (cs ++ r) := by rw [h1]; simp
      _ = RE.run k r := run_litsList_self cs k r

theorem run_lits_self (s : String) (r : List Char) : RE.run (lits s) (s.data ++ r) = [r] := by
  rw [lits]
  have := run_litsList_self s.data RE.eps r
  simpa [RE.run] using this

theorem run_lits_self_seq (s : String) (k : RE) (r : List Char) :
    RE.run (RE.seq (lits s) k) (s.data ++ r) = RE.run k r :=
  run_seq_single k (run_lits_self s r)

theorem run_lits_fail_head (s : String) {a : Char} {cs : List Char} (hs : s.data = a :: cs)
    {c : Char} (h1 : ¬ c = a) (h2 : ¬ c = swapCase a) (r : List Char) :
    RE.run (lits s) (c :: r) = [] := by
  rw [lits, hs]
  show RE.run (RE.seq (ciC a) (cs.foldr (fun c a => RE.seq (ciC c) a) RE.eps)) (c :: r) = []
  exact run_seq_fail _ (run_ciC_fail h1 h2 r)

theorem run_cls2_self (a b : Char) (r : List Char) : RE.run (cls2 a b) (a :: r) = [r] := by
  simp [cls2, RE.run]

theorem run_alt2_first (l1 l2 : RE) {s t : List Char} (h1 : RE.run l1 s = [t])
    (h2 : RE.run l2 s = []) : RE.run (palt [l1, l2]) s = [t] := by
  show RE.run (RE.alt l1 l2) s = [t]
  rw [run_alt_split, h1, h2]
  rfl

theorem flat_lazy_to_star2 : ∀ (x : List Char), (∀ c ∈ x, ¬ c = '\n' ∧ ¬ c = '*') →
    ∀ r : List Char,
    (lazyTails (fun c => !(c == '\n')) (x ++ ('*' :: '*' :: '\n' :: r))).flatMap
      (fun t => RE.run (RE.seq star2 RE.eps) t) = ['\n' :: r]
  | [], _, r => rfl
  | c :: x, h, r => by
    have hc := h c (List.mem_cons_self c x)
    have hdot : (!(c == '\n')) = true := by
      simp only [Bool.not_eq_true']
      exact beq_eq_false_iff_ne.mpr hc.1
    rw [List.cons_append, lazyTails]
    simp only [hdot, if_true]
    rw [List.flatMap_cons]
    rw [run_seq_star2_nostar RE.eps c hc.2]
    rw [List.nil_append]
    exact flat_lazy_to_star2 x (fun d hd => h d (List.mem_cons_of_mem c hd)) r

/-- One scan step of `re.subn` across a non-star character, for a pattern that
fails on any non-star head. -/
theorem subn_cons_nostar (p : RE) (hfail : ∀ c s, ¬ c = '*' → RE.run p (c :: s) = [])
    (eng : List Char) (c : Char) (hc : ¬ c = '*') (s : List Char) :
    subnOnce p eng (c :: s) = (c :: (subnOnce p eng s).1, (subnOnce p eng s).2) := by
  simp [subnOnce, hfail c s hc]

/-- `re.subn` finds nothing in a star-free text, for a pattern that fails on
any non-star head and on the empty text. -/
theorem subnOnce_starfree (p : RE) (eng : List Char)
    (hfail : ∀ c s, ¬ c = '*' → RE.run p (c :: s) = []) (hnil : RE.run p [] = [])
    (a : List Char) (ha : starFree a = true) : subnOnce p eng a = (a, 0) := by
  induction a with
  | nil => simp [subnOnce, hnil]
  | cons c a2 ih =>
    rw [starFree, List.all_cons, Bool.and_eq_true] at ha
    obtain ⟨hc, ha2⟩ := ha
    have hcs : ¬ c = '*' := by simpa using hc
    rw [subn_cons_nostar p hfail eng c hcs a2, ih ha2]

/-- When the head pattern reports no substitution on `t` itself, `tryPatterns`
moves on to the remaining patterns. -/
theorem tryPatterns_miss (eng : List Char) (p : RE) (ps : List RE) (t : List Char)
    (h : subnOnce p eng t = (t, 0)) : tryPatterns eng (p :: ps) t = tryPatterns eng ps t := by
  simp only [tryPatterns, h, gt_iff_lt, Nat.lt_irrefl, if_false]

/-- A pattern that misses all three variant segments and the star-free padding
leaves the whole separated input unchanged. -/
theorem subn_sepInput_miss (p : RE) (eng : List Char)
    (hfail : ∀ c s, ¬ c = '*' → RE.run p (c :: s) = []) (hnil : RE.run p [] = [])
    (u1 u2 u3 p1 q2 q3 q4 : List Char)
    (k1 : ∀ r, subnOnce p eng (u1 ++ ('\n' :: r)) =
      (u1 ++ ('\n' :: (subnOnce p eng r).1), (subnOnce p eng r).2))
    (k2 : ∀ r, subnOnce p eng (u2 ++ ('\n' :: r)) =
      (u2 ++ ('\n' :: (subnOnce p eng r).1), (subnOnce p eng r).2))
    (k3 : ∀ r, subnOnce p eng (u3 ++ ('\n' :: r)) =
      (u3 ++ ('\n' :: (subnOnce p eng r).1), (subnOnce p eng r).2))
    (h1 : starFree p1 = true) (h2 : starFree q2 = true) (h3 : starFree q3 = true)
    (h4 : starFree q4 = true) :
    subnOnce p eng (sepInput u1 u2 u3 p1 q2 q3 q4) = (sepInput u1 u2 u3 p1 q2 q3 q4, 0) := by
  simp only [sepInput]
  rw [subnOnce_append_starfree p eng hfail p1 _ h1, k1,
      subnOnce_append_starfree p eng hfail q2 _ h2, k2,
      subnOnce_append_starfree p eng hfail q3 _ h3, k3,
      subnOnce_starfree p eng hfail hnil q4 h4]

/-- The pattern substitutes at the first variant segment. -/
theorem subn_sepInput_hit (p : RE) (eng : List Char)
    (hfail : ∀ c s, ¬ c = '*' → RE.run p (c :: s) = [])
    (u1 u2 u3 p1 q2 q3 q4 : List Char)
    (hm : ∀ r, subnOnce p eng (u1 ++ ('\n' :: r)) = (eng ++ ('\n' :: r), 1))
    (h1 : starFree p1 = true) :
    subnOnce p eng (sepInput u1 u2 u3 p1 q2 q3 q4) = (sepInput eng u2 u3 p1 q2 q3 q4, 1) := by
  simp only [sepInput]
  rw [subnOnce_append_starfree p eng hfail p1 _ h1, hm]

/-- The pattern passes the first variant segment and substitutes at the
second. -/
theorem subn_sepInput_hit2 (p : RE) (eng : List Char)
    (hfail : ∀ c s, ¬ c = '*' → RE.run p (c :: s) = [])
    (u1 u2 u3 p1 q2 q3 q4 : List Char)
    (k1 : ∀ r, subnOnce p eng (u1 ++ ('\n' :: r)) =
      (u1 ++ ('\n' :: (subnOnce p eng r).1), (subnOnce p eng r).2))
    (hm : ∀ r, subnOnce p eng (u2 ++ ('\n' :: r)) = (eng ++ ('\n' :: r), 1))
    (h1 : starFree p1 = true) (h2 : starFree q2 = true) :
    subnOnce p eng (sepInput u1 u2 u3 p1 q2 q3 q4) = (sepInput u1 eng u3 p1 q2 q3 q4, 1) := by
  simp only [sepInput]
  rw [subnOnce_append_starfree p eng hfail p1 _ h1, k1,
      subnOnce_append_starfree p eng hfail q2 _ h2, hm]

/-- The pattern passes the first two variant segments and substitutes at the
third. -/
theorem subn_sepInput_hit3 (p : RE) (eng : List Char)
    (hfail : ∀ c s, ¬ c = '*' → RE.run p (c :: s) = [])
    (u1 u2 u3 p1 q2 q3 q4 : List Char)
    (k1 : ∀ r, subnOnce p eng (u1 ++ ('\n' :: r)) =
      (u1 ++ ('\n' :: (subnOnce p eng r).1), (subnOnce p eng r).2))
    (k2 : ∀ r, subnOnce p eng (u2 ++ ('\n' :: r)) =
      (u2 ++ ('\n' :: (subnOnce p eng r).1), (subnOnce p eng r).2))
    (hm : ∀ r, subnOnce p eng (u3 ++ ('\n' :: r)) = (eng ++ ('\n' :: r), 1))
    (h1 : starFree p1 = true) (h2 : starFree q2 = true) (h3 : starFree q3 = true) :
    subnOnce p eng (sepInput u1 u2 u3 p1 q2 q3 q4) = (sepInput u1 u2 eng p1 q2 q3 q4, 1) := by
  simp only [sepInput]
  rw [subnOnce_append_starfree p eng hfail p1 _ h1, k1,
      subnOnce_append_starfree p eng hfail q2 _ h2, k2,
      subnOnce_append_starfree p eng hfail q3 _ h3, hm]

theorem run_pat11_varWell (r : List Char) : RE.run pat11 (varWell ++ r) = [r] := by
  have e : varWell ++ r
      = '*' :: '*' :: ("Ce que ".data ++ ("vous avez".data ++ (" bien fait".data ++ ('*' :: '*' :: r)))) := rfl
  rw [e, pat11]
  rw [run_seq_single _ (run_star2_self _)]
  show RE.run (RE.seq (lits "Ce que ")
      (RE.seq (palt [lits "vous avez", lits "tu as"])
        (RE.seq (lits " bien fait") (RE.seq star2 RE.eps)))) _ = [r]
  rw [run_lits_self_seq]
  have halt : RE.run (palt [lits "vous avez", lits "tu as"])
      ("vous avez".data ++ (" bien fait".data ++ ('*' :: '*' :: r)))
      = [" bien fait".data ++ ('*' :: '*' :: r)] := by
    show RE.run (RE.alt (lits "vous avez") (lits "tu as")) _ = _
    rw [run_alt_split, run_lits_self]
    rw [show ("vous avez".data ++ (" bien fait".data ++ ('*' :: '*' :: r)))
        = 'v' :: ("ous avez".data ++ (" bien fait".data ++ ('*' :: '*' :: r))) from rfl]
    rw [run_lits_fail_head "tu as" rfl (by decide) (by decide)]
    rfl
  rw [run_seq_single _ halt]
  rw [run_lits_self_seq]
  rw [run_seq_single _ (run_star2_self _)]
  rfl

theorem run_pat12_varWellNl (r : List Char) : RE.run pat12 (varWellNl ++ r) = [r] := by
  have e : varWellNl ++ r
      = '*' :: '*' :: ("Wat ".data ++ ("je".data ++ (" goed ".data
        ++ ("hebt ".data ++ ("gedaan".data ++ ('*' :: '*' :: r)))))) := rfl
  rw [e, pat12]
  rw [run_seq_single _ (run_star2_self _)]
  show RE.run (RE.seq (lits "Wat ") (RE.seq (palt [lits "je", lits "u"])
      (RE.seq (lits " goed ") (RE.seq (RE.opt (palt [lits "hebt ", lits "heeft "]))
        (RE.seq (lits "gedaan") (RE.seq star2 RE.eps)))))) _ = [r]
  rw [run_lits_self_seq]
  have halt : RE.run (palt [lits "je", lits "u"]) ("je".data ++ (" goed ".data
      ++ ("hebt ".data ++ ("gedaan".data ++ ('*' :: '*' :: r)))))
      = [" goed ".data ++ ("hebt ".data ++ ("gedaan".data ++ ('*' :: '*' :: r)))] :=
    run_alt2_first _ _ (run_lits_self "je" _) rfl
  rw [run_seq_single _ halt, run_lits_self_seq]
  have hopt : RE.run (RE.opt (palt [lits "hebt ", lits "heeft "]))
      ("hebt ".data ++ ("gedaan".data ++ ('*' :: '*' :: r)))
      = [("gedaan".data ++ ('*' :: '*' :: r)),
         ("hebt ".data ++ ("gedaan".data ++ ('*' :: '*' :: r)))] := by
    have hx : RE.run (palt [lits "hebt ", lits "heeft "])
        ("hebt ".data ++ ("gedaan".data ++ ('*' :: '*' :: r)))
        = [("gedaan".data ++ ('*' :: '*' :: r))] := by
      refine run_alt2_first _ _ (run_lits_self "hebt " _) ?_
      rfl
    show RE.run (palt [lits "hebt ", lits "heeft "]) _ ++ [_] = _
    rw [hx]
    rfl
  have hfail2 : RE.run (RE.seq (lits "gedaan") (RE.seq star2 RE.eps))
      ("hebt ".data ++ ("gedaan".data ++ ('*' :: '*' :: r))) = [] := rfl
  rw [run_seq_pair _ hopt hfail2]
  rw [run_lits_self_seq, run_seq_single _ (run_star2_self _)]
  rfl

theorem run_pat13_varWellPts (r : List Char) : RE.run pat13 (varWellPts ++ r) = [r] := by
  have e : varWellPts ++ r
      = '*' :: '*' :: ("Point".data ++ ('s' :: (" fort".data ++ ('s' :: ('*' :: '*' :: r))))) := rfl
  rw [e, pat13]
  rw [run_seq_single _ (run_star2_self _)]
  show RE.run (RE.seq (palt
      [pseq [lits "Point", RE.opt (ciC 's'), lits " fort", RE.opt (ciC 's')],
       pseq [lits "Point", RE.opt (ciC 's'), lits " positif", RE.opt (ciC 's')]])
      (RE.seq star2 RE.eps)) _ = [r]
  have h1 : RE.run (pseq [lits "Point", RE.opt (ciC 's'), lits " fort", RE.opt (ciC 's')])
      ("Point".data ++ ('s' :: (" fort".data ++ ('s' :: ('*' :: '*' :: r)))))
      = ['*' :: '*' :: r, 's' :: '*' :: '*' :: r] := by
    show RE.run (RE.seq (lits "Point") (RE.seq (RE.opt (ciC 's'))
        (RE.seq (lits " fort") (RE.seq (RE.opt (ciC 's')) RE.eps)))) _ = _
    rw [run_lits_self_seq]
    have hopt1 : RE.run (RE.opt (ciC 's')) ('s' :: (" fort".data ++ ('s' :: ('*' :: '*' :: r))))
        = [(" fort".data ++ ('s' :: ('*' :: '*' :: r))),
           's' :: (" fort".data ++ ('s' :: ('*' :: '*' :: r)))] := rfl
    have hf : RE.run (RE.seq (lits " fort") (RE.seq (RE.opt (ciC 's')) RE.eps))
        ('s' :: (" fort".data ++ ('s' :: ('*' :: '*' :: r)))) = [] := rfl
    rw [run_seq_pair _ hopt1 hf]
    rw [run_lits_self_seq]
    rfl
  have h2 : RE.run (pseq [lits "Point", RE.opt (ciC 's'), lits " positif", RE.opt (ciC 's')])
      ("Point".data ++ ('s' :: (" fort".data ++ ('s' :: ('*' :: '*' :: r))))) = [] := by
    show RE.run (RE.seq (lits "Point") (RE.seq (RE.opt (ciC 's'))
        (RE.seq (lits " positif") (RE.seq (RE.opt (ciC 's')) RE.eps)))) _ = []
    rw [run_lits_self_seq]
    rfl
  have hA : RE.run (palt
      [pseq [lits "Point", RE.opt (ciC 's'), lits " fort", RE.opt (ciC 's')],
       pseq [lits "Point", RE.opt (ciC 's'), lits " positif", RE.opt (ciC 's')]])
      ("Point".data ++ ('s' :: (" fort".data ++ ('s' :: ('*' :: '*' :: r)))))
      = ['*' :: '*' :: r, 's' :: '*' :: '*' :: r] := by
    show RE.run (pseq [lits "Point", RE.opt (ciC 's'), lits " fort", RE.opt (ciC 's')]) _
        ++ RE.run (pseq [lits "Point", RE.opt (ciC 's'), lits " positif", RE.opt (ciC 's')]) _ = _
    rw [h1, h2]
    rfl
  have hf2 : RE.run (RE.seq star2 RE.eps) ('s' :: '*' :: '*' :: r) = [] := rfl
  rw [run_seq_pair _ hA hf2]
  rw [run_seq_single _ (run_star2_self _)]
  rfl

theorem run_pat14_varWellNl2 (r : List Char) : RE.run pat14 (varWellNl2 ++ r) = [r] := by
  have e : varWellNl2 ++ r = '*' :: '*' :: ("Wat ging er goed".data ++ ('*' :: '*' :: r)) := rfl
  rw [e, pat14]
  rw [run_seq_single _ (run_star2_self _)]
  show RE.run (RE.seq (lits "Wat ging er goed") (RE.seq star2 RE.eps)) _ = [r]
  rw [run_lits_self_seq]
  rw [run_seq_single _ (run_star2_self _)]
  rfl

theorem run_pat21_varImprove (r : List Char) :
    RE.run pat21 (varImprove ++ ('\n' :: r)) = ['\n' :: r] := by
  have e : varImprove ++ ('\n' :: r)
      = '*' :: '*' :: ("Ce que ".data ++ ("vous pourriez".data ++ (" faire diff".data
        ++ ('é' :: ("remment".data ++ (" la prochaine fois".data ++ ('*' :: '*' :: '\n' :: r))))))) := rfl
  rw [e, pat21]
  rw [run_seq_single _ (run_star2_self _)]
  show RE.run (RE.seq (lits "Ce que ")
      (RE.seq (palt [lits "vous pourriez", lits "tu pourrais"])
        (RE.seq (lits " faire diff")
          (RE.seq (cls2 'é' 'e')
            (RE.seq (lits "remment")
              (RE.seq (RE.lazySome (fun c => !(c == '\n'))) (RE.seq star2 RE.eps))))))) _ = _
  rw [run_lits_self_seq]
  have halt : RE.run (palt [lits "vous pourriez", lits "tu pourrais"])
      ("vous pourriez".data ++ (" faire diff".data
        ++ ('é' :: ("remment".data ++ (" la prochaine fois".data ++ ('*' :: '*' :: '\n' :: r))))))
      = [" faire diff".data ++ ('é' :: ("remment".data
          ++ (" la prochaine fois".data ++ ('*' :: '*' :: '\n' :: r))))] := by
    refine run_alt2_first _ _ (run_lits_self "vous pourriez" _) ?_
    rw [show ("vous pourriez".data ++ (" faire diff".data
        ++ ('é' :: ("remment".data ++ (" la prochaine fois".data ++ ('*' :: '*' :: '\n' :: r))))))
      = 'v' :: ("ous pourriez".data ++ (" faire diff".data
        ++ ('é' :: ("remment".data ++ (" la prochaine fois".data ++ ('*' :: '*' :: '\n' :: r))))))
      from rfl]
    exact run_lits_fail_head "tu pourrais" rfl (by decide) (by decide) _
  rw [run_seq_single _ halt]
  rw [run_lits_self_seq]
  rw [run_seq_single _ (run_cls2_self 'é' 'e' _)]
  rw [run_lits_self_seq]
  rw [show (" la prochaine fois".data ++ ('*' :: '*' :: '\n' :: r))
      = ' ' :: ("la prochaine fois".data ++ ('*' :: '*' :: '\n' :: r)) from rfl]
  have hlazy : RE.run (RE.lazySome (fun c => !(c == '\n')))
      (' ' :: ("la prochaine fois".data ++ ('*' :: '*' :: '\n' :: r)))
      = lazyTails (fun c => !(c == '\n')) ("la prochaine fois".data ++ ('*' :: '*' :: '\n' :: r)) := by
    simp [RE.run]
  show (RE.run (RE.lazySome (fun c => !(c == '\n')))
      (' ' :: ("la prochaine fois".data ++ ('*' :: '*' :: '\n' :: r)))).flatMap
      (fun t => RE.run (RE.seq star2 RE.eps) t) = ['\n' :: r]
  rw [hlazy]
  exact flat_lazy_to_star2 "la prochaine fois".data (by decide) r

theorem run_pat22_varImproveNl (r : List Char) : RE.run pat22 (varImproveNl ++ r) = [r] := by
  have e : varImproveNl ++ r
      = '*' :: '*' :: ("Wat ".data ++ ("je".data ++ (" de volgende keer anders ".data
        ++ ("zou ".data ++ ("kunnen doen".data ++ ('*' :: '*' :: r)))))) := rfl
  rw [e, pat22]
  rw [run_seq_single _ (run_star2_self _)]
  show RE.run (RE.seq (lits "Wat ") (RE.seq (palt [lits "je", lits "u"])
      (RE.seq (lits " de volgende keer anders ")
        (RE.seq (RE.opt (pseq [lits "zou", RE.opt (lits "dt"), lits " "]))
          (RE.seq (lits "kunnen doen") (RE.seq star2 RE.eps)))))) _ = [r]
  rw [run_lits_self_seq]
  have halt : RE.run (palt [lits "je", lits "u"]) ("je".data ++ (" de volgende keer anders ".data
      ++ ("zou ".data ++ ("kunnen doen".data ++ ('*' :: '*' :: r)))))
      = [" de volgende keer anders ".data ++ ("zou ".data ++ ("kunnen doen".data ++ ('*' :: '*' :: r)))] :=
    run_alt2_first _ _ (run_lits_self "je" _) rfl
  rw [run_seq_single _ halt, run_lits_self_seq]
  have hZ : RE.run (pseq [lits "zou", RE.opt (lits "dt"), lits " "])
      ("zou ".data ++ ("kunnen doen".data ++ ('*' :: '*' :: r)))
      = [("kunnen doen".data ++ ('*' :: '*' :: r))] := by
    show RE.run (RE.seq (lits "zou") (RE.seq (RE.opt (lits "dt")) (RE.seq (lits " ") RE.eps))) _ = _
    rw [show ("zou ".data ++ ("kunnen doen".data ++ ('*' :: '*' :: r)))
        = "zou".data ++ (' ' :: ("kunnen doen".data ++ ('*' :: '*' :: r))) from rfl]
    rw [run_lits_self_seq]
    rfl
  have hopt : RE.run (RE.opt (pseq [lits "zou", RE.opt (lits "dt"), lits " "]))
      ("zou ".data ++ ("kunnen doen".data ++ ('*' :: '*' :: r)))
      = [("kunnen doen".data ++ ('*' :: '*' :: r)),
         ("zou ".data ++ ("kunnen doen".data ++ ('*' :: '*' :: r)))] := by
    show RE.run (pseq [lits "zou", RE.opt (lits "dt"), lits " "]) _ ++ [_] = _
    rw [hZ]
    rfl
  have hfail2 : RE.run (RE.seq (lits "kunnen doen") (RE.seq star2 RE.eps))
      ("zou ".data ++ ("kunnen doen".data ++ ('*' :: '*' :: r))) = [] := rfl
  rw [run_seq_pair _ hopt hfail2]
  rw [run_lits_self_seq, run_seq_single _ (run_star2_self _)]
  rfl

theorem run_pat23_varImprovePts (r : List Char) :
    RE.run pat23 (varImprovePts ++ ('\n' :: r)) = ['\n' :: r] := by
  have e : varImprovePts ++ ('\n' :: r)
      = '*' :: '*' :: ("Point".data ++ ('s' :: (' ' :: ('à' :: (" am".data
        ++ ('é' :: ("liorer".data ++ ('*' :: '*' :: '\n' :: r)))))))) := rfl
  rw [e, pat23]
  rw [run_seq_single _ (run_star2_self _)]
  show RE.run (RE.seq (palt
      [pseq [lits "Point", RE.opt (ciC 's'), lits " ", cls2 'à' 'a', lits " am", cls2 'é' 'e', lits "liorer"],
       pseq [lits "Axe", RE.opt (ciC 's'), lits " d", anyChar, lits "am", cls2 'é' 'e', lits "lioration"]])
      (RE.seq (RE.lazyMany (fun c => !(c == '\n'))) (RE.seq star2 RE.eps))) _ = ['\n' :: r]
  have h1 : RE.run (pseq [lits "Point", RE.opt (ciC 's'), lits " ", cls2 'à' 'a', lits " am", cls2 'é' 'e', lits "liorer"])
      ("Point".data ++ ('s' :: (' ' :: ('à' :: (" am".data ++ ('é' :: ("liorer".data ++ ('*' :: '*' :: '\n' :: r))))))))
      = ['*' :: '*' :: '\n' :: r] := by
    show RE.run (RE.seq (lits "Point") (RE.seq (RE.opt (ciC 's')) (RE.seq (lits " ")
        (RE.seq (cls2 'à' 'a') (RE.seq (lits " am") (RE.seq (cls2 'é' 'e')
          (RE.seq (lits "liorer") RE.eps))))))) _ = _
    rw [run_lits_self_seq]
    have hopt1 : RE.run (RE.opt (ciC 's'))
        ('s' :: (' ' :: ('à' :: (" am".data ++ ('é' :: ("liorer".data ++ ('*' :: '*' :: '\n' :: r)))))))
        = [(' ' :: ('à' :: (" am".data ++ ('é' :: ("liorer".data ++ ('*' :: '*' :: '\n' :: r)))))),
           ('s' :: (' ' :: ('à' :: (" am".data ++ ('é' :: ("liorer".data ++ ('*' :: '*' :: '\n' :: r)))))))] := rfl
    have hf : RE.run (RE.seq (lits " ") (RE.seq (cls2 'à' 'a') (RE.seq (lits " am")
        (RE.seq (cls2 'é' 'e') (RE.seq (lits "liorer") RE.eps)))))
        ('s' :: (' ' :: ('à' :: (" am".data ++ ('é' :: ("liorer".data ++ ('*' :: '*' :: '\n' :: r))))))) = [] := rfl
    rw [run_seq_pair _ hopt1 hf]
    rw [show (' ' :: ('à' :: (" am".data ++ ('é' :: ("liorer".data ++ ('*' :: '*' :: '\n' :: r))))))
        = " ".data ++ ('à' :: (" am".data ++ ('é' :: ("liorer".data ++ ('*' :: '*' :: '\n' :: r))))) from rfl]
    rw [run_lits_self_seq]
    rw [run_seq_single _ (run_cls2_self 'à' 'a' _)]
    rw [run_lits_self_seq]
    rw [run_seq_single _ (run_cls2_self 'é' 'e' _)]
    rw [run_lits_self_seq]
    rfl
  have h2 : RE.run (pseq [lits "Axe", RE.opt (ciC 's'), lits " d", anyChar, lits "am", cls2 'é' 'e', lits "lioration"])
      ("Point".data ++ ('s' :: (' ' :: ('à' :: (" am".data ++ ('é' :: ("liorer".data ++ ('*' :: '*' :: '\n' :: r)))))))) = [] := rfl
  have hA : RE.run (palt
      [pseq [lits "Point", RE.opt (ciC 's'), lits " ", cls2 'à' 'a', lits " am", cls2 'é' 'e', lits "liorer"],
       pseq [lits "Axe", RE.opt (ciC 's'), lits " d", anyChar, lits "am", cls2 'é' 'e', lits "lioration"]])
      ("Point".data ++ ('s' :: (' ' :: ('à' :: (" am".data ++ ('é' :: ("liorer".data ++ ('*' :: '*' :: '\n' :: r))))))))
      = ['*' :: '*' :: '\n' :: r] := by
    show RE.run (pseq [lits "Point", RE.opt (ciC 's'), lits " ", cls2 'à' 'a', lits " am", cls2 'é' 'e', lits "liorer"]) _
        ++ RE.run (pseq [lits "Axe", RE.opt (ciC 's'), lits " d", anyChar, lits "am", cls2 'é' 'e', lits "lioration"]) _ = _
    rw [h1, h2]
    rfl
  rw [run_seq_single _ hA]
  rfl

theorem run_pat24_varImproveNl2 (r : List Char) : RE.run pat24 (varImproveNl2 ++ r) = [r] := by
  have e : varImproveNl2 ++ r
      = '*' :: '*' :: ("Wat ".data ++ ("je".data ++ (" anders ".data
        ++ ("zou ".data ++ ("kunnen doen".data ++ ('*' :: '*' :: r)))))) := rfl
  rw [e, pat24]
  rw [run_seq_single _ (run_star2_self _)]
  show RE.run (RE.seq (lits "Wat ") (RE.seq (palt [lits "je", lits "u"])
      (RE.seq (lits " anders ")
        (RE.seq (RE.opt (pseq [lits "zou", RE.opt (lits "dt"), lits " "]))
          (RE.seq (lits "kunnen doen") (RE.seq star2 RE.eps)))))) _ = [r]
  rw [run_lits_self_seq]
  have halt : RE.run (palt [lits "je", lits "u"]) ("je".data ++ (" anders ".data
      ++ ("zou ".data ++ ("kunnen doen".data ++ ('*' :: '*' :: r)))))
      = [" anders ".data ++ ("zou ".data ++ ("kunnen doen".data ++ ('*' :: '*' :: r)))] :=
    run_alt2_first _ _ (run_lits_self "je" _) rfl
  rw [run_seq_single _ halt, run_lits_self_seq]
  have hZ : RE.run (pseq [lits "zou", RE.opt (lits "dt"), lits " "])
      ("zou ".data ++ ("kunnen doen".data ++ ('*' :: '*' :: r)))
      = [("kunnen doen".data ++ ('*' :: '*' :: r))] := by
    show RE.run (RE.seq (lits "zou") (RE.seq (RE.opt (lits "dt")) (RE.seq (lits " ") RE.eps))) _ = _
    rw [show ("zou ".data ++ ("kunnen doen".data ++ ('*' :: '*' :: r)))
        = "zou".data ++ (' ' :: ("kunnen doen".data ++ ('*' :: '*' :: r))) from rfl]
    rw [run_lits_self_seq]
    rfl
  have hopt : RE.run (RE.opt (pseq [lits "zou", RE.opt (lits "dt"), lits " "]))
      ("zou ".data ++ ("kunnen doen".data ++ ('*' :: '*' :: r)))
      = [("kunnen doen".data ++ ('*' :: '*' :: r)),
         ("zou ".data ++ ("kunnen doen".data ++ ('*' :: '*' :: r)))] := by
    show RE.run (pseq [lits "zou", RE.opt (lits "dt"), lits " "]) _ ++ [_] = _
    rw [hZ]
    rfl
  have hfail2 : RE.run (RE.seq (lits "kunnen doen") (RE.seq star2 RE.eps))
      ("zou ".data ++ ("kunnen doen".data ++ ('*' :: '*' :: r))) = [] := rfl
  rw [run_seq_pair _ hopt hfail2]
  rw [run_lits_self_seq, run_seq_single _ (run_star2_self _)]
  rfl

theorem run_pat31_varOverall (r : List Char) : RE.run pat31 (varOverall ++ r) = [r] := by
  have e : varOverall ++ r = '*' :: '*' :: ("Conclusion".data ++ ('*' :: '*' :: r)) := rfl
  rw [e, pat31]
  rw [run_seq_single _ (run_star2_self _)]
  show RE.run (RE.seq (palt
    [pseq [lits "En r", cls2 'é' 'e', lits "sum", cls2 'é' 'e'],
     lits "Conclusion", lits "Bilan",
     pseq [lits "Dans l", anyChar, lits "ensemble"], lits "Globalement"])
    (RE.seq star2 RE.eps)) _ = [r]
  have hcons : ("Conclusion".data ++ ('*' :: '*' :: r))
      = 'C' :: ("onclusion".data ++ ('*' :: '*' :: r)) := rfl
  have f1 : RE.run (pseq [lits "En r", cls2 'é' 'e', lits "sum", cls2 'é' 'e'])
      ("Conclusion".data ++ ('*' :: '*' :: r)) = [] := by
    rw [hcons]
    show RE.run (RE.seq (lits "En r") _) _ = []
    exact run_seq_fail _ (run_lits_fail_head "En r" rfl (by decide) (by decide) _)
  have f3 : RE.run (lits "Bilan") ("Conclusion".data ++ ('*' :: '*' :: r)) = [] := by
    rw [hcons]
    exact run_lits_fail_head "Bilan" rfl (by decide) (by decide) _
  have f4 : RE.run (pseq [lits "Dans l", anyChar, lits "ensemble"])
      ("Conclusion".data ++ ('*' :: '*' :: r)) = [] := by
    rw [hcons]
    show RE.run (RE.seq (lits "Dans l") _) _ = []
    exact run_seq_fail _ (run_lits_fail_head "Dans l" rfl (by decide) (by decide) _)
  have f5 : RE.run (lits "Globalement") ("Conclusion".data ++ ('*' :: '*' :: r)) = [] := by
    rw [hcons]
    exact run_lits_fail_head "Globalement" rfl (by decide) (by decide) _
  have halt : RE.run (palt
      [pseq [lits "En r", cls2 'é' 'e', lits "sum", cls2 'é' 'e'],
       lits "Conclusion", lits "Bilan",
       pseq [lits "Dans l", anyChar, lits "ensemble"], lits "Globalement"])
      ("Conclusion".data ++ ('*' :: '*' :: r)) = ['*' :: '*' :: r] := by
    show RE.run (RE.alt (pseq [lits "En r", cls2 'é' 'e', lits "sum", cls2 'é' 'e'])
      (RE.alt (lits "Conclusion") (RE.alt (lits "Bilan")
        (RE.alt (pseq [lits "Dans l", anyChar, lits "ensemble"]) (lits "Globalement"))))) _ = _
    rw [run_alt_split, run_alt_split, run_alt_split, run_alt_split]
    rw [f1, f3, f4, f5, run_lits_self]
    simp
  rw [run_seq_single _ halt]
  rw [run_seq_single _ (run_star2_self _)]
  rfl

theorem run_pat31_varOverallBilan (r : List Char) : RE.run pat31 (varOverallBilan ++ r) = [r] := by
  have e : varOverallBilan ++ r = '*' :: '*' :: ("Bilan".data ++ ('*' :: '*' :: r)) := rfl
  rw [e, pat31]
  rw [run_seq_single _ (run_star2_self _)]
  show RE.run (RE.seq (palt
    [pseq [lits "En r", cls2 'é' 'e', lits "sum", cls2 'é' 'e'],
     lits "Conclusion", lits "Bilan",
     pseq [lits "Dans l", anyChar, lits "ensemble"], lits "Globalement"])
    (RE.seq star2 RE.eps)) _ = [r]
  have hcons : ("Bilan".data ++ ('*' :: '*' :: r))
      = 'B' :: ("ilan".data ++ ('*' :: '*' :: r)) := rfl
  have f1 : RE.run (pseq [lits "En r", cls2 'é' 'e', lits "sum", cls2 'é' 'e'])
      ("Bilan".data ++ ('*' :: '*' :: r)) = [] := by
    rw [hcons]
    show RE.run (RE.seq (lits "En r") _) _ = []
    exact run_seq_fail _ (run_lits_fail_head "En r" rfl (by decide) (by decide) _)
  have f2 : RE.run (lits "Conclusion") ("Bilan".data ++ ('*' :: '*' :: r)) = [] := by
    rw [hcons]
    exact run_lits_fail_head "Conclusion" rfl (by decide) (by decide) _
  have f4 : RE.run (pseq [lits "Dans l", anyChar, lits "ensemble"])
      ("Bilan".data ++ ('*' :: '*' :: r)) = [] := by
    rw [hcons]
    show RE.run (RE.seq (lits "Dans l") _) _ = []
    exact run_seq_fail _ (run_lits_fail_head "Dans l" rfl (by decide) (by decide) _)
  have f5 : RE.run (lits "Globalement") ("Bilan".data ++ ('*' :: '*' :: r)) = [] := by
    rw [hcons]
    exact run_lits_fail_head "Globalement" rfl (by decide) (by decide) _
  have halt : RE.run (palt
      [pseq [lits "En r", cls2 'é' 'e', lits "sum", cls2 'é' 'e'],
       lits "Conclusion", lits "Bilan",
       pseq [lits "Dans l", anyChar, lits "ensemble"], lits "Globalement"])
      ("Bilan".data ++ ('*' :: '*' :: r)) = ['*' :: '*' :: r] := by
    show RE.run (RE.alt (pseq [lits "En r", cls2 'é' 'e', lits "sum", cls2 'é' 'e'])
      (RE.alt (lits "Conclusion") (RE.alt (lits "Bilan")
        (RE.alt (pseq [lits "Dans l", anyChar, lits "ensemble"]) (lits "Globalement"))))) _ = _
    rw [run_alt_split, run_alt_split, run_alt_split, run_alt_split]
    rw [f1, f2, f4, f5, run_lits_self]
    simp
  rw [run_seq_single _ halt]
  rw [run_seq_single _ (run_star2_self _)]
  rfl

theorem run_pat32_varOverallNl (r : List Char) : RE.run pat32 (varOverallNl ++ r) = [r] := by
  have e : varOverallNl ++ r = '*' :: '*' :: ("Algeheel".data ++ ('*' :: '*' :: r)) := rfl
  rw [e, pat32]
  rw [run_seq_single _ (run_star2_self _)]
  show RE.run (RE.seq (palt
    [lits "Algeheel", lits "Over het geheel", lits "Samenvatting", lits "Algemeen", lits "Totaal"])
    (RE.seq star2 RE.eps)) _ = [r]
  have f2 : RE.run (lits "Over het geheel") ("Algeheel".data ++ ('*' :: '*' :: r)) = [] := rfl
  have f3 : RE.run (lits "Samenvatting") ("Algeheel".data ++ ('*' :: '*' :: r)) = [] := rfl
  have f4 : RE.run (lits "Algemeen") ("Algeheel".data ++ ('*' :: '*' :: r)) = [] := rfl
  have f5 : RE.run (lits "Totaal") ("Algeheel".data ++ ('*' :: '*' :: r)) = [] := rfl
  have halt : RE.run (palt
      [lits "Algeheel", lits "Over het geheel", lits "Samenvatting", lits "Algemeen", lits "Totaal"])
      ("Algeheel".data ++ ('*' :: '*' :: r)) = ['*' :: '*' :: r] := by
    show RE.run (RE.alt (lits "Algeheel") (RE.alt (lits "Over het geheel")
      (RE.alt (lits "Samenvatting") (RE.alt (lits "Algemeen") (lits "Totaal"))))) _ = _
    rw [run_alt_split, run_alt_split, run_alt_split, run_alt_split]
    rw [f2, f3, f4, f5, run_lits_self]
    simp
  rw [run_seq_single _ halt]
  rw [run_seq_single _ (run_star2_self _)]
  rfl

/-- The first WellDone pattern matches exactly the first WellDone variant at
its start, whatever follows. -/
theorem sub11_match_varWell : ∀ r, subnOnce pat11 hdrWell (varWell ++ r) = (hdrWell ++ r, 1) := by
  intro r
  have h := run_pat11_varWell r
  rw [show varWell ++ r = '*' :: ("*Ce que vous avez bien fait**".data ++ r) from rfl] at h ⊢
  rw [subnOnce, h]
  rfl

/-- The second WellDone pattern matches the Dutch WellDone variant. -/
theorem sub12_match_varWellNl : ∀ r, subnOnce pat12 hdrWell (varWellNl ++ r) = (hdrWell ++ r, 1) := by
  intro r
  have h := run_pat12_varWellNl r
  rw [show varWellNl ++ r = '*' :: ("*Wat je goed hebt gedaan**".data ++ r) from rfl] at h ⊢
  rw [subnOnce, h]
  rfl

/-- The third WellDone pattern matches the Points-forts variant. -/
theorem sub13_match_varWellPts : ∀ r, subnOnce pat13 hdrWell (varWellPts ++ r) = (hdrWell ++ r, 1) := by
  intro r
  have h := run_pat13_varWellPts r
  rw [show varWellPts ++ r = '*' :: ("*Points forts**".data ++ r) from rfl] at h ⊢
  rw [subnOnce, h]
  rfl

/-- The fourth WellDone pattern matches the second Dutch WellDone variant. -/
theorem sub14_match_varWellNl2 : ∀ r, subnOnce pat14 hdrWell (varWellNl2 ++ r) = (hdrWell ++ r, 1) := by
  intro r
  have h := run_pat14_varWellNl2 r
  rw [show varWellNl2 ++ r = '*' :: ("*Wat ging er goed**".data ++ r) from rfl] at h ⊢
  rw [subnOnce, h]
  rfl

/-- The first Improve pattern matches exactly the first Improve variant at its
start; the lazy part stops at the closing stars of the variant because the
variant is followed by a newline. -/
theorem sub21_match_varImprove : ∀ r,
    subnOnce pat21 hdrImprove (varImprove ++ ('\n' :: r)) = (hdrImprove ++ ('\n' :: r), 1) := by
  intro r
  have h := run_pat21_varImprove r
  rw [show varImprove ++ ('\n' :: r)
      = '*' :: ("*Ce que vous pourriez faire différemment la prochaine fois**".data ++ ('\n' :: r)) from rfl] at h ⊢
  rw [subnOnce, h]
  rfl

/-- The second Improve pattern matches the Dutch Improve variant. -/
theorem sub22_match_varImproveNl : ∀ r,
    subnOnce pat22 hdrImprove (varImproveNl ++ r) = (hdrImprove ++ r, 1) := by
  intro r
  have h := run_pat22_varImproveNl r
  rw [show varImproveNl ++ r
      = '*' :: ("*Wat je de volgende keer anders zou kunnen doen**".data ++ r) from rfl] at h ⊢
  rw [subnOnce, h]
  rfl

/-- The third Improve pattern matches the Points-a-ameliorer variant; its lazy
part stops at the closing stars because the variant is followed by a
newline. -/
theorem sub23_match_varImprovePts : ∀ r,
    subnOnce pat23 hdrImprove (varImprovePts ++ ('\n' :: r)) = (hdrImprove ++ ('\n' :: r), 1) := by
  intro r
  have h := run_pat23_varImprovePts r
  rw [show varImprovePts ++ ('\n' :: r)
      = '*' :: ("*Points à améliorer**".data ++ ('\n' :: r)) from rfl] at h ⊢
  rw [subnOnce, h]
  rfl

/-- The fourth Improve pattern matches the second Dutch Improve variant. -/
theorem sub24_match_varImproveNl2 : ∀ r,
    subnOnce pat24 hdrImprove (varImproveNl2 ++ r) = (hdrImprove ++ r, 1) := by
  intro r
  have h := run_pat24_varImproveNl2 r
  rw [show varImproveNl2 ++ r
      = '*' :: ("*Wat je anders zou kunnen doen**".data ++ r) from rfl] at h ⊢
  rw [subnOnce, h]
  rfl

/-- The first Overall pattern matches exactly the first Overall variant at its
start, whatever follows. -/
theorem sub31_match_varOverall : ∀ r, subnOnce pat31 hdrOverall (varOverall ++ r) = (hdrOverall ++ r, 1) := by
  intro r
  have h := run_pat31_varOverall r
  rw [show varOverall ++ r = '*' :: ("*Conclusion**".data ++ r) from rfl] at h ⊢
  rw [subnOnce, h]
  rfl

/-- The first Overall pattern matches the Bilan variant. -/
theorem sub31_match_varOverallBilan : ∀ r,
    subnOnce pat31 hdrOverall (varOverallBilan ++ r) = (hdrOverall ++ r, 1) := by
  intro r
  have h := run_pat31_varOverallBilan r
  rw [show varOverallBilan ++ r = '*' :: ("*Bilan**".data ++ r) from rfl] at h ⊢
  rw [subnOnce, h]
  rfl

/-- The second Overall pattern matches the Dutch Overall variant. -/
theorem sub32_match_varOverallNl : ∀ r,
    subnOnce pat32 hdrOverall (varOverallNl ++ r) = (hdrOverall ++ r, 1) := by
  intro r
  have h := run_pat32_varOverallNl r
  rw [show varOverallNl ++ r = '*' :: ("*Algeheel**".data ++ r) from rfl] at h ⊢
  rw [subnOnce, h]
  rfl

theorem sk11_varWellNl : ∀ r, subnOnce pat11 hdrWell (varWellNl ++ ('\n' :: r)) =
    (varWellNl ++ ('\n' :: (subnOnce pat11 hdrWell r).1), (subnOnce pat11 hdrWell r).2) :=
  fun _ => rfl

theorem sk11_varWellPts : ∀ r, subnOnce pat11 hdrWell (varWellPts ++ ('\n' :: r)) =
    (varWellPts ++ ('\n' :: (subnOnce pat11 hdrWell r).1), (subnOnce pat11 hdrWell r).2) :=
  fun _ => rfl

theorem sk11_varWellNl2 : ∀ r, subnOnce pat11 hdrWell (varWellNl2 ++ ('\n' :: r)) =
    (varWellNl2 ++ ('\n' :: (subnOnce pat11 hdrWell r).1), (subnOnce pat11 hdrWell r).2) :=
  fun _ => rfl

theorem sk12_varWellPts : ∀ r, subnOnce pat12 hdrWell (varWellPts ++ ('\n' :: r)) =
    (varWellPts ++ ('\n' :: (subnOnce pat12 hdrWell r).1), (subnOnce pat12 hdrWell r).2) :=
  fun _ => rfl

theorem sk12_varWellNl2 : ∀ r, subnOnce pat12 hdrWell (varWellNl2 ++ ('\n' :: r)) =
    (varWellNl2 ++ ('\n' :: (subnOnce pat12 hdrWell r).1), (subnOnce pat12 hdrWell r).2) :=
  fun _ => rfl

theorem sk13_varWellNl2 : ∀ r, subnOnce pat13 hdrWell (varWellNl2 ++ ('\n' :: r)) =
    (varWellNl2 ++ ('\n' :: (subnOnce pat13 hdrWell r).1), (subnOnce pat13 hdrWell r).2) :=
  fun _ => rfl

theorem sk21_hdrWell : ∀ r, subnOnce pat21 hdrImprove (hdrWell ++ ('\n' :: r)) =
    (hdrWell ++ ('\n' :: (subnOnce pat21 hdrImprove r).1), (subnOnce pat21 hdrImprove r).2) :=
  fun _ => rfl

theorem sk21_varImproveNl : ∀ r, subnOnce pat21 hdrImprove (varImproveNl ++ ('\n' :: r)) =
    (varImproveNl ++ ('\n' :: (subnOnce pat21 hdrImprove r).1), (subnOnce pat21 hdrImprove r).2) :=
  fun _ => rfl

theorem sk21_varImprovePts : ∀ r, subnOnce pat21 hdrImprove (varImprovePts ++ ('\n' :: r)) =
    (varImprovePts ++ ('\n' :: (subnOnce pat21 hdrImprove r).1), (subnOnce pat21 hdrImprove r).2) :=
  fun _ => rfl

theorem sk21_varImproveNl2 : ∀ r, subnOnce pat21 hdrImprove (varImproveNl2 ++ ('\n' :: r)) =
    (varImproveNl2 ++ ('\n' :: (subnOnce pat21 hdrImprove r).1), (subnOnce pat21 hdrImprove r).2) :=
  fun _ => rfl

theorem sk22_hdrWell : ∀ r, subnOnce pat22 hdrImprove (hdrWell ++ ('\n' :: r)) =
    (hdrWell ++ ('\n' :: (subnOnce pat22 hdrImprove r).1), (subnOnce pat22 hdrImprove r).2) :=
  fun _ => rfl

theorem sk22_varImprovePts : ∀ r, subnOnce pat22 hdrImprove (varImprovePts ++ ('\n' :: r)) =
    (varImprovePts ++ ('\n' :: (subnOnce pat22 hdrImprove r).1), (subnOnce pat22 hdrImprove r).2) :=
  fun _ => rfl

theorem sk22_varImproveNl2 : ∀ r, subnOnce pat22 hdrImprove (varImproveNl2 ++ ('\n' :: r)) =
    (varImproveNl2 ++ ('\n' :: (subnOnce pat22 hdrImprove r).1), (subnOnce pat22 hdrImprove r).2) :=
  fun _ => rfl

theorem sk23_hdrWell : ∀ r, subnOnce pat23 hdrImprove (hdrWell ++ ('\n' :: r)) =
    (hdrWell ++ ('\n' :: (subnOnce pat23 hdrImprove r).1), (subnOnce pat23 hdrImprove r).2) :=
  fun _ => rfl

theorem sk23_varImproveNl2 : ∀ r, subnOnce pat23 hdrImprove (varImproveNl2 ++ ('\n' :: r)) =
    (varImproveNl2 ++ ('\n' :: (subnOnce pat23 hdrImprove r).1), (subnOnce pat23 hdrImprove r).2) :=
  fun _ => rfl

theorem sk24_hdrWell : ∀ r, subnOnce pat24 hdrImprove (hdrWell ++ ('\n' :: r)) =
    (hdrWell ++ ('\n' :: (subnOnce pat24 hdrImprove r).1), (subnOnce pat24 hdrImprove r).2) :=
  fun _ => rfl

theorem sk31_hdrWell : ∀ r, subnOnce pat31 hdrOverall (hdrWell ++ ('\n' :: r)) =
    (hdrWell ++ ('\n' :: (subnOnce pat31 hdrOverall r).1), (subnOnce pat31 hdrOverall r).2) :=
  fun _ => rfl

theorem sk31_hdrImprove : ∀ r, subnOnce pat31 hdrOverall (hdrImprove ++ ('\n' :: r)) =
    (hdrImprove ++ ('\n' :: (subnOnce pat31 hdrOverall r).1), (subnOnce pat31 hdrOverall r).2) :=
  fun _ => rfl

theorem sk31_varOverallNl : ∀ r, subnOnce pat31 hdrOverall (varOverallNl ++ ('\n' :: r)) =
    (varOverallNl ++ ('\n' :: (subnOnce pat31 hdrOverall r).1), (subnOnce pat31 hdrOverall r).2) :=
  fun _ => rfl

theorem sk32_hdrWell : ∀ r, subnOnce pat32 hdrOverall (hdrWell ++ ('\n' :: r)) =
    (hdrWell ++ ('\n' :: (subnOnce pat32 hdrOverall r).1), (subnOnce pat32 hdrOverall r).2) :=
  fun _ => rfl

theorem sk32_hdrImprove : ∀ r, subnOnce pat32 hdrOverall (hdrImprove ++ ('\n' :: r)) =
    (hdrImprove ++ ('\n' :: (subnOnce pat32 hdrOverall r).1), (subnOnce pat32 hdrOverall r).2) :=
  fun _ => rfl

set_option maxHeartbeats 1600000 in
/-- The first WellDone pattern finds no match inside any Improve variant
segment. -/
theorem skip11_improve (v : List Char) (hv : v ∈ improveVariants) :
    ∀ r, subnOnce pat11 hdrWell (v ++ ('\n' :: r)) =
      (v ++ ('\n' :: (subnOnce pat11 hdrWell r).1), (subnOnce pat11 hdrWell r).2) := by
  simp only [improveVariants, List.mem_cons, List.not_mem_nil, or_false] at hv
  rcases hv with rfl | rfl | rfl | rfl <;> exact fun _ => rfl

set_option maxHeartbeats 1600000 in
/-- The first WellDone pattern finds no match inside any Overall variant
segment. -/
theorem skip11_overall (v : List Char) (hv : v ∈ overallVariants) :
    ∀ r, subnOnce pat11 hdrWell (v ++ ('\n' :: r)) =
      (v ++ ('\n' :: (subnOnce pat11 hdrWell r).1), (subnOnce pat11 hdrWell r).2) := by
  simp only [overallVariants, List.mem_cons, List.not_mem_nil, or_false] at hv
  rcases hv with rfl | rfl | rfl <;> exact fun _ => rfl

set_option maxHeartbeats 1600000 in
/-- The second WellDone pattern finds no match inside any Improve variant
segment. -/
theorem skip12_improve (v : List Char) (hv : v ∈ improveVariants) :
    ∀ r, subnOnce pat12 hdrWell (v ++ ('\n' :: r)) =
      (v ++ ('\n' :: (subnOnce pat12 hdrWell r).1), (subnOnce pat12 hdrWell r).2) := by
  simp only [improveVariants, List.mem_cons, List.not_mem_nil, or_false] at hv
  rcases hv with rfl | rfl | rfl | rfl <;> exact fun _ => rfl

set_option maxHeartbeats 1600000 in
/-- The second WellDone pattern finds no match inside any Overall variant
segment. -/
theorem skip12_overall (v : List Char) (hv : v ∈ overallVariants) :
    ∀ r, subnOnce pat12 hdrWell (v ++ ('\n' :: r)) =
      (v ++ ('\n' :: (subnOnce pat12 hdrWell r).1), (subnOnce pat12 hdrWell r).2) := by
  simp only [overallVariants, List.mem_cons, List.not_mem_nil, or_false] at hv
  rcases hv with rfl | rfl | rfl <;> exact fun _ => rfl

set_option maxHeartbeats 1600000 in
/-- The third WellDone pattern finds no match inside any Improve variant
segment. -/
theorem skip13_improve (v : List Char) (hv : v ∈ improveVariants) :
    ∀ r, subnOnce pat13 hdrWell (v ++ ('\n' :: r)) =
      (v ++ ('\n' :: (subnOnce pat13 hdrWell r).1), (subnOnce pat13 hdrWell r).2) := by
  simp only [improveVariants, List.mem_cons, List.not_mem_nil, or_false] at hv
  rcases hv with rfl | rfl | rfl | rfl <;> exact fun _ => rfl

set_option maxHeartbeats 1600000 in
/-- The third WellDone pattern finds no match inside any Overall variant
segment. -/
theorem skip13_overall (v : List Char) (hv : v ∈ overallVariants) :
    ∀ r, subnOnce pat13 hdrWell (v ++ ('\n' :: r)) =
      (v ++ ('\n' :: (subnOnce pat13 hdrWell r).1), (subnOnce pat13 hdrWell r).2) := by
  simp only [overallVariants, List.mem_cons, List.not_mem_nil, or_false] at hv
  rcases hv with rfl | rfl | rfl <;> exact fun _ => rfl

set_option maxHeartbeats 1600000 in
/-- The first Improve pattern finds no match inside any Overall variant
segment. -/
theorem skip21_overall (v : List Char) (hv : v ∈ overallVariants) :
    ∀ r, subnOnce pat21 hdrImprove (v ++ ('\n' :: r)) =
      (v ++ ('\n' :: (subnOnce pat21 hdrImprove r).1), (subnOnce pat21 hdrImprove r).2) := by
  simp only [overallVariants, List.mem_cons, List.not_mem_nil, or_false] at hv
  rcases hv with rfl | rfl | rfl <;> exact fun _ => rfl

set_option maxHeartbeats 1600000 in
/-- The second Improve pattern finds no match inside any Overall variant
segment. -/
theorem skip22_overall (v : List Char) (hv : v ∈ overallVariants) :
    ∀ r, subnOnce pat22 hdrImprove (v ++ ('\n' :: r)) =
      (v ++ ('\n' :: (subnOnce pat22 hdrImprove r).1), (subnOnce pat22 hdrImprove r).2) := by
  simp only [overallVariants, List.mem_cons, List.not_mem_nil, or_false] at hv
  rcases hv with rfl | rfl | rfl <;> exact fun _ => rfl

set_option maxHeartbeats 1600000 in
/-- The third Improve pattern finds no match inside any Overall variant
segment. -/
theorem skip23_overall (v : List Char) (hv : v ∈ overallVariants) :
    ∀ r, subnOnce pat23 hdrImprove (v ++ ('\n' :: r)) =
      (v ++ ('\n' :: (subnOnce pat23 hdrImprove r).1), (subnOnce pat23 hdrImprove r).2) := by
  simp only [overallVariants, List.mem_cons, List.not_mem_nil, or_false] at hv
  rcases hv with rfl | rfl | rfl <;> exact fun _ => rfl

set_option maxHeartbeats 1600000 in
/-- The WellDone canonical header does not start inside any WellDone variant
segment. -/
theorem contW_well (v : List Char) (hv : v ∈ wellVariants) :
    ∀ r, containsSub hdrWell (v ++ ('\n' :: r)) = containsSub hdrWell r := by
  simp only [wellVariants, List.mem_cons, List.not_mem_nil, or_false] at hv
  rcases hv with rfl | rfl | rfl | rfl <;> exact fun _ => rfl

set_option maxHeartbeats 1600000 in
/-- The WellDone canonical header does not start inside any Improve variant
segment. -/
theorem contW_improve (v : List Char) (hv : v ∈ improveVariants) :
    ∀ r, containsSub hdrWell (v ++ ('\n' :: r)) = containsSub hdrWell r := by
  simp only [improveVariants, List.mem_cons, List.not_mem_nil, or_false] at hv
  rcases hv with rfl | rfl | rfl | rfl <;> exact fun _ => rfl

set_option maxHeartbeats 1600000 in
/-- The WellDone canonical header does not start inside any Overall variant
segment. -/
theorem contW_overall (v : List Char) (hv : v ∈ overallVariants) :
    ∀ r, containsSub hdrWell (v ++ ('\n' :: r)) = containsSub hdrWell r := by
  simp only [overallVariants, List.mem_cons, List.not_mem_nil, or_false] at hv
  rcases hv with rfl | rfl | rfl <;> exact fun _ => rfl

set_option maxHeartbeats 1600000 in
/-- The Improve canonical header does not start inside any Improve variant
segment. -/
theorem contI_improve (v : List Char) (hv : v ∈ improveVariants) :
    ∀ r, containsSub hdrImprove (v ++ ('\n' :: r)) = containsSub hdrImprove r := by
  simp only [improveVariants, List.mem_cons, List.not_mem_nil, or_false] at hv
  rcases hv with rfl | rfl | rfl | rfl <;> exact fun _ => rfl

set_option maxHeartbeats 1600000 in
/-- The Improve canonical header does not start inside any Overall variant
segment. -/
theorem contI_overall (v : List Char) (hv : v ∈ overallVariants) :
    ∀ r, containsSub hdrImprove (v ++ ('\n' :: r)) = containsSub hdrImprove r := by
  simp only [overallVariants, List.mem_cons, List.not_mem_nil, or_false] at hv
  rcases hv with rfl | rfl | rfl <;> exact fun _ => rfl

set_option maxHeartbeats 1600000 in
/-- The Overall canonical header does not start inside any Overall variant
segment. -/
theorem contO_overall (v : List Char) (hv : v ∈ overallVariants) :
    ∀ r, containsSub hdrOverall (v ++ ('\n' :: r)) = containsSub hdrOverall r := by
  simp only [overallVariants, List.mem_cons, List.not_mem_nil, or_false] at hv
  rcases hv with rfl | rfl | rfl <;> exact fun _ => rfl

/-- The Improve canonical header does not start inside the substituted
WellDone header segment. -/
theorem ci_skip_hdrWell : ∀ r, containsSub hdrImprove (hdrWell ++ ('\n' :: r)) = containsSub hdrImprove r :=
  fun _ => rfl

/-- The Overall canonical header does not start inside the substituted
WellDone header segment. -/
theorem co_skip_hdrWell : ∀ r, containsSub hdrOverall (hdrWell ++ ('\n' :: r)) = containsSub hdrOverall r :=
  fun _ => rfl

/-- The Overall canonical header does not start inside the substituted
Improve header segment. -/
theorem co_skip_hdrImprove : ∀ r, containsSub hdrOverall (hdrImprove ++ ('\n' :: r)) = containsSub hdrOverall r :=
  fun _ => rfl

/-- Counting the WellDone header across its own segment yields exactly one
occurrence. -/
theorem cnt_w_at_w : ∀ r, countOccs hdrWell (hdrWell ++ ('\n' :: r)) = 1 + countOccs hdrWell r :=
  fun _ => rfl

/-- The WellDone header does not occur inside the Improve header segment. -/
theorem cnt_w_at_i : ∀ r, countOccs hdrWell (hdrImprove ++ ('\n' :: r)) = countOccs hdrWell r :=
  fun _ => rfl

/-- The WellDone header does not occur inside the Overall header segment. -/
theorem cnt_w_at_o : ∀ r, countOccs hdrWell (hdrOverall ++ ('\n' :: r)) = countOccs hdrWell r :=
  fun _ => rfl

/-- The Improve header does not occur inside the WellDone header segment. -/
theorem cnt_i_at_w : ∀ r, countOccs hdrImprove (hdrWell ++ ('\n' :: r)) = countOccs hdrImprove r :=
  fun _ => rfl

/-- Counting the Improve header across its own segment yields exactly one
occurrence. -/
theorem cnt_i_at_i : ∀ r, countOccs hdrImprove (hdrImprove ++ ('\n' :: r)) = 1 + countOccs hdrImprove r :=
  fun _ => rfl

/-- The Improve header does not occur inside the Overall header segment. -/
theorem cnt_i_at_o : ∀ r, countOccs hdrImprove (hdrOverall ++ ('\n' :: r)) = countOccs hdrImprove r :=
  fun _ => rfl

/-- The Overall header does not occur inside the WellDone header segment. -/
theorem cnt_o_at_w : ∀ r, countOccs hdrOverall (hdrWell ++ ('\n' :: r)) = countOccs hdrOverall r :=
  fun _ => rfl

/-- The Overall header does not occur inside the Improve header segment. -/
theorem cnt_o_at_i : ∀ r, countOccs hdrOverall (hdrImprove ++ ('\n' :: r)) = countOccs hdrOverall r :=
  fun _ => rfl

/-- Counting the Overall header across its own segment yields exactly one
occurrence. -/
theorem cnt_o_at_o : ∀ r, countOccs hdrOverall (hdrOverall ++ ('\n' :: r)) = 1 + countOccs hdrOverall r :=
  fun _ => rfl

/-- When the first pattern substitutes, `tryPatterns` stops with its result. -/
theorem tryPatterns_hit (eng : List Char) (p : RE) (ps : List RE) (t u : List Char)
    (h : subnOnce p eng t = (u, 1)) : tryPatterns eng (p :: ps) t = u := by
  rw [tryPatterns]
  simp [h]

/-- The WellDone pass of the loop replaces the WellDone variant (whichever of
the four representative variants it is) by the canonical WellDone header and
touches nothing else. -/
theorem applyFix1_variants (v1 v2 v3 p1 q2 q3 q4 : List Char)
    (hv1 : v1 ∈ wellVariants) (hv2 : v2 ∈ improveVariants) (hv3 : v3 ∈ overallVariants)
    (h1 : starFree p1 = true) (h2 : starFree q2 = true) (h3 : starFree q3 = true)
    (h4 : starFree q4 = true) :
    applyFix (sepInput v1 v2 v3 p1 q2 q3 q4) fix1 = sepInput hdrWell v2 v3 p1 q2 q3 q4 := by
  have hswW : hdrWell.head? = some '*' := rfl
  have hmW : ('*' ∈ hdrWell) := by decide
  have hc1 : containsSub hdrWell (sepInput v1 v2 v3 p1 q2 q3 q4) = false := by
    simp only [sepInput]
    rw [containsSub_append_starfree hdrWell hswW p1 _ h1, contW_well v1 hv1,
        containsSub_append_starfree hdrWell hswW q2 _ h2, contW_improve v2 hv2,
        containsSub_append_starfree hdrWell hswW q3 _ h3, contW_overall v3 hv3]
    exact containsSub_starfree_false hdrWell hmW q4 h4
  rw [applyFix]
  have he : fix1.english = hdrWell := rfl
  have hp : fix1.patterns = [pat11, pat12, pat13, pat14] := rfl
  rw [he, hp, hc1]
  simp only [Bool.false_eq_true, if_false]
  simp only [wellVariants, List.mem_cons, List.not_mem_nil, or_false] at hv1
  rcases hv1 with rfl | rfl | rfl | rfl
  · exact tryPatterns_hit hdrWell pat11 [pat12, pat13, pat14] _ _
      (subn_sepInput_hit pat11 hdrWell pat11_headfail varWell v2 v3 p1 q2 q3 q4
        (fun r => sub11_match_varWell ('\n' :: r)) h1)
  · rw [tryPatterns_miss hdrWell pat11 [pat12, pat13, pat14] _
      (subn_sepInput_miss pat11 hdrWell pat11_headfail rfl varWellNl v2 v3 p1 q2 q3 q4
        sk11_varWellNl (skip11_improve v2 hv2) (skip11_overall v3 hv3) h1 h2 h3 h4)]
    exact tryPatterns_hit hdrWell pat12 [pat13, pat14] _ _
      (subn_sepInput_hit pat12 hdrWell pat12_headfail varWellNl v2 v3 p1 q2 q3 q4
        (fun r => sub12_match_varWellNl ('\n' :: r)) h1)
  · rw [tryPatterns_miss hdrWell pat11 [pat12, pat13, pat14] _
      (subn_sepInput_miss pat11 hdrWell pat11_headfail rfl varWellPts v2 v3 p1 q2 q3 q4
        sk11_varWellPts (skip11_improve v2 hv2) (skip11_overall v3 hv3) h1 h2 h3 h4)]
    rw [tryPatterns_miss hdrWell pat12 [pat13, pat14] _
      (subn_sepInput_miss pat12 hdrWell pat12_headfail rfl varWellPts v2 v3 p1 q2 q3 q4
        sk12_varWellPts (skip12_improve v2 hv2) (skip12_overall v3 hv3) h1 h2 h3 h4)]
    exact tryPatterns_hit hdrWell pat13 [pat14] _ _
      (subn_sepInput_hit pat13 hdrWell pat13_headfail varWellPts v2 v3 p1 q2 q3 q4
        (fun r => sub13_match_varWellPts ('\n' :: r)) h1)
  · rw [tryPatterns_miss hdrWell pat11 [pat12, pat13, pat14] _
      (subn_sepInput_miss pat11 hdrWell pat11_headfail rfl varWellNl2 v2 v3 p1 q2 q3 q4
        sk11_varWellNl2 (skip11_improve v2 hv2) (skip11_overall v3 hv3) h1 h2 h3 h4)]
    rw [tryPatterns_miss hdrWell pat12 [pat13, pat14] _
      (subn_sepInput_miss pat12 hdrWell pat12_headfail rfl varWellNl2 v2 v3 p1 q2 q3 q4
        sk12_varWellNl2 (skip12_improve v2 hv2) (skip12_overall v3 hv3) h1 h2 h3 h4)]
    rw [tryPatterns_miss hdrWell pat13 [pat14] _
      (subn_sepInput_miss pat13 hdrWell pat13_headfail rfl varWellNl2 v2 v3 p1 q2 q3 q4
        sk13_varWellNl2 (skip13_improve v2 hv2) (skip13_overall v3 hv3) h1 h2 h3 h4)]
    exact tryPatterns_hit hdrWell pat14 [] _ _
      (subn_sepInput_hit pat14 hdrWell pat14_headfail varWellNl2 v2 v3 p1 q2 q3 q4
        (fun r => sub14_match_varWellNl2 ('\n' :: r)) h1)

/-- The Improve pass of the loop replaces the Improve variant by the canonical
Improve header and touches nothing else. -/
theorem applyFix2_variants (v2 v3 p1 q2 q3 q4 : List Char)
    (hv2 : v2 ∈ improveVariants) (hv3 : v3 ∈ overallVariants)
    (h1 : starFree p1 = true) (h2 : starFree q2 = true) (h3 : starFree q3 = true)
    (h4 : starFree q4 = true) :
    applyFix (sepInput hdrWell v2 v3 p1 q2 q3 q4) fix2 = sepInput hdrWell hdrImprove v3 p1 q2 q3 q4 := by
  have hswI : hdrImprove.head? = some '*' := rfl
  have hmI : ('*' ∈ hdrImprove) := by decide
  have hc2 : containsSub hdrImprove (sepInput hdrWell v2 v3 p1 q2 q3 q4) = false := by
    simp only [sepInput]
    rw [containsSub_append_starfree hdrImprove hswI p1 _ h1, ci_skip_hdrWell,
        containsSub_append_starfree hdrImprove hswI q2 _ h2, contI_improve v2 hv2,
        containsSub_append_starfree hdrImprove hswI q3 _ h3, contI_overall v3 hv3]
    exact containsSub_starfree_false hdrImprove hmI q4 h4
  rw [applyFix]
  have he : fix2.english = hdrImprove := rfl
  have hp : fix2.patterns = [pat21, pat22, pat23, pat24] := rfl
  rw [he, hp, hc2]
  simp only [Bool.false_eq_true, if_false]
  simp only [improveVariants, List.mem_cons, List.not_mem_nil, or_false] at hv2
  rcases hv2 with rfl | rfl | rfl | rfl
  · exact tryPatterns_hit hdrImprove pat21 [pat22, pat23, pat24] _ _
      (subn_sepInput_hit2 pat21 hdrImprove pat21_headfail hdrWell varImprove v3 p1 q2 q3 q4
        sk21_hdrWell sub21_match_varImprove h1 h2)
  · rw [tryPatterns_miss hdrImprove pat21 [pat22, pat23, pat24] _
      (subn_sepInput_miss pat21 hdrImprove pat21_headfail rfl hdrWell varImproveNl v3 p1 q2 q3 q4
        sk21_hdrWell sk21_varImproveNl (skip21_overall v3 hv3) h1 h2 h3 h4)]
    exact tryPatterns_hit hdrImprove pat22 [pat23, pat24] _ _
      (subn_sepInput_hit2 pat22 hdrImprove pat22_headfail hdrWell varImproveNl v3 p1 q2 q3 q4
        sk22_hdrWell (fun r => sub22_match_varImproveNl ('\n' :: r)) h1 h2)
  · rw [tryPatterns_miss hdrImprove pat21 [pat22, pat23, pat24] _
      (subn_sepInput_miss pat21 hdrImprove pat21_headfail rfl hdrWell varImprovePts v3 p1 q2 q3 q4
        sk21_hdrWell sk21_varImprovePts (skip21_overall v3 hv3) h1 h2 h3 h4)]
    rw [tryPatterns_miss hdrImprove pat22 [pat23, pat24] _
      (subn_sepInput_miss pat22 hdrImprove pat22_headfail rfl hdrWell varImprovePts v3 p1 q2 q3 q4
        sk22_hdrWell sk22_varImprovePts (skip22_overall v3 hv3) h1 h2 h3 h4)]
    exact tryPatterns_hit hdrImprove pat23 [pat24] _ _
      (subn_sepInput_hit2 pat23 hdrImprove pat23_headfail hdrWell varImprovePts v3 p1 q2 q3 q4
        sk23_hdrWell sub23_match_varImprovePts h1 h2)
  · rw [tryPatterns_miss hdrImprove pat21 [pat22, pat23, pat24] _
      (subn_sepInput_miss pat21 hdrImprove pat21_headfail rfl hdrWell varImproveNl2 v3 p1 q2 q3 q4
        sk21_hdrWell sk21_varImproveNl2 (skip21_overall v3 hv3) h1 h2 h3 h4)]
    rw [tryPatterns_miss hdrImprove pat22 [pat23, pat24] _
      (subn_sepInput_miss pat22 hdrImprove pat22_headfail rfl hdrWell varImproveNl2 v3 p1 q2 q3 q4
        sk22_hdrWell sk22_varImproveNl2 (skip22_overall v3 hv3) h1 h2 h3 h4)]
    rw [tryPatterns_miss hdrImprove pat23 [pat24] _
      (subn_sepInput_miss pat23 hdrImprove pat23_headfail rfl hdrWell varImproveNl2 v3 p1 q2 q3 q4
        sk23_hdrWell sk23_varImproveNl2 (skip23_overall v3 hv3) h1 h2 h3 h4)]
    exact tryPatterns_hit hdrImprove pat24 [] _ _
      (subn_sepInput_hit2 pat24 hdrImprove pat24_headfail hdrWell varImproveNl2 v3 p1 q2 q3 q4
        sk24_hdrWell (fun r => sub24_match_varImproveNl2 ('\n' :: r)) h1 h2)

/-- The Overall pass of the loop replaces the Overall variant by the canonical
Overall header and touches nothing else. -/
theorem applyFix3_variants (v3 p1 q2 q3 q4 : List Char)
    (hv3 : v3 ∈ overallVariants)
    (h1 : starFree p1 = true) (h2 : starFree q2 = true) (h3 : starFree q3 = true)
    (h4 : starFree q4 = true) :
    applyFix (sepInput hdrWell hdrImprove v3 p1 q2 q3 q4) fix3
      = sepInput hdrWell hdrImprove hdrOverall p1 q2 q3 q4 := by
  have hswO : hdrOverall.head? = some '*' := rfl
  have hmO : ('*' ∈ hdrOverall) := by decide
  have hc3 : containsSub hdrOverall (sepInput hdrWell hdrImprove v3 p1 q2 q3 q4) = false := by
    simp only [sepInput]
    rw [containsSub_append_starfree hdrOverall hswO p1 _ h1, co_skip_hdrWell,
        containsSub_append_starfree hdrOverall hswO q2 _ h2, co_skip_hdrImprove,
        containsSub_append_starfree hdrOverall hswO q3 _ h3, contO_overall v3 hv3]
    exact containsSub_starfree_false hdrOverall hmO q4 h4
  rw [applyFix]
  have he : fix3.english = hdrOverall := rfl
  have hp : fix3.patterns = [pat31, pat32] := rfl
  rw [he, hp, hc3]
  simp only [Bool.false_eq_true, if_false]
  simp only [overallVariants, List.mem_cons, List.not_mem_nil, or_false] at hv3
  rcases hv3 with rfl | rfl | rfl
  · exact tryPatterns_hit hdrOverall pat31 [pat32] _ _
      (subn_sepInput_hit3 pat31 hdrOverall pat31_headfail hdrWell hdrImprove varOverall p1 q2 q3 q4
        sk31_hdrWell sk31_hdrImprove (fun r => sub31_match_varOverall ('\n' :: r)) h1 h2 h3)
  · exact tryPatterns_hit hdrOverall pat31 [pat32] _ _
      (subn_sepInput_hit3 pat31 hdrOverall pat31_headfail hdrWell hdrImprove varOverallBilan p1 q2 q3 q4
        sk31_hdrWell sk31_hdrImprove (fun r => sub31_match_varOverallBilan ('\n' :: r)) h1 h2 h3)
  · rw [tryPatterns_miss hdrOverall pat31 [pat32] _
      (subn_sepInput_miss pat31 hdrOverall pat31_headfail rfl hdrWell hdrImprove varOverallNl p1 q2 q3 q4
        sk31_hdrWell sk31_hdrImprove sk31_varOverallNl h1 h2 h3 h4)]
    exact tryPatterns_hit hdrOverall pat32 [] _ _
      (subn_sepInput_hit3 pat32 hdrOverall pat32_headfail hdrWell hdrImprove varOverallNl p1 q2 q3 q4
        sk32_hdrWell sk32_hdrImprove (fun r => sub32_match_varOverallNl ('\n' :: r)) h1 h2 h3)

/-- Claim C1 (counterexample): the input `cex1` contains a recognizable
(French) variant of each of the three headers, yet the normalizer output
contains the canonical `**What you did well**` zero times: the freshly
substituted WellDone header is swallowed by the lazy `.+?` of the Improve pattern
match. -/
theorem normalize_loses_well_header :
    (∀ f ∈ header_fixes, hasVariant f cex1 = true) ∧
      countOccs hdrWell (ensure_section_headers cex1) = 0 := by
  constructor
  · decide
  · decide

/-- Claim C1 (amended): on any input built of one recognizable clean variant
of each header drawn from the representative variant lists (`wellVariants`,
`improveVariants`, `overallVariants` — one instance of every translated-header
pattern, French and Dutch), in order, each variant followed by a newline, and
otherwise only star-free text, `_ensure_section_headers` replaces exactly the
three variants by their canonical headers and the output contains each
canonical header exactly once.  (The unrestricted claim is false: see the
counterexample.) -/
theorem normalize_canonical_once (v1 v2 v3 p1 q2 q3 q4 : List Char)
    (hv1 : v1 ∈ wellVariants) (hv2 : v2 ∈ improveVariants) (hv3 : v3 ∈ overallVariants)
    (h1 : starFree p1 = true) (h2 : starFree q2 = true)
    (h3 : starFree q3 = true) (h4 : starFree q4 = true) :
    ensure_section_headers (sepInput v1 v2 v3 p1 q2 q3 q4)
      = sepInput hdrWell hdrImprove hdrOverall p1 q2 q3 q4 ∧
    countOccs hdrWell (ensure_section_headers (sepInput v1 v2 v3 p1 q2 q3 q4)) = 1 ∧
    countOccs hdrImprove (ensure_section_headers (sepInput v1 v2 v3 p1 q2 q3 q4)) = 1 ∧
    countOccs hdrOverall (ensure_section_headers (sepInput v1 v2 v3 p1 q2 q3 q4)) = 1 := by
  have hswW : hdrWell.head? = some '*' := rfl
  have hswI : hdrImprove.head? = some '*' := rfl
  have hswO : hdrOverall.head? = some '*' := rfl
  have hmW : ('*' ∈ hdrWell) := by decide
  have hmI : ('*' ∈ hdrImprove) := by decide
  have hmO : ('*' ∈ hdrOverall) := by decide
  have hnorm : ensure_section_headers (sepInput v1 v2 v3 p1 q2 q3 q4)
      = sepInput hdrWell hdrImprove hdrOverall p1 q2 q3 q4 := by
    rw [ensure_section_headers]
    have hfx : header_fixes = [fix1, fix2, fix3] := rfl
    rw [hfx]
    simp only [List.foldl]
    rw [applyFix1_variants v1 v2 v3 p1 q2 q3 q4 hv1 hv2 hv3 h1 h2 h3 h4,
        applyFix2_variants v2 v3 p1 q2 q3 q4 hv2 hv3 h1 h2 h3 h4,
        applyFix3_variants v3 p1 q2 q3 q4 hv3 h1 h2 h3 h4]
  refine ⟨hnorm, ?_, ?_, ?_⟩
  · rw [hnorm]
    simp only [sepInput]
    rw [countOccs_append_starfree hdrWell hswW p1 _ h1, cnt_w_at_w,
        countOccs_append_starfree hdrWell hswW q2 _ h2, cnt_w_at_i,
        countOccs_append_starfree hdrWell hswW q3 _ h3, cnt_w_at_o]
    rw [countOccs_starfree_zero hdrWell hmW q4 h4]
  · rw [hnorm]
    simp only [sepInput]
    rw [countOccs_append_starfree hdrImprove hswI p1 _ h1, cnt_i_at_w,
        countOccs_append_starfree hdrImprove hswI q2 _ h2, cnt_i_at_i,
        countOccs_append_starfree hdrImprove hswI q3 _ h3, cnt_i_at_o]
    rw [countOccs_starfree_zero hdrImprove hmI q4 h4]
  · rw [hnorm]
    simp only [sepInput]
    rw [countOccs_append_starfree hdrOverall hswO p1 _ h1, cnt_o_at_w,
        countOccs_append_starfree hdrOverall hswO q2 _ h2, cnt_o_at_i,
        countOccs_append_starfree hdrOverall hswO q3 _ h3, cnt_o_at_o]
    rw [countOccs_starfree_zero hdrOverall hmO q4 h4]

/-- Witness for the amended C1 theorem: a French Points-forts WellDone
variant, a Dutch Improve variant and a French Bilan Overall variant, with
concrete star-free padding. -/
theorem normalize_canonical_once_witness :
    ensure_section_headers (sepInput varWellPts varImproveNl2 varOverallBilan
        "Intro:".data " milieu".data "".data "fin".data)
      = sepInput hdrWell hdrImprove hdrOverall "Intro:".data " milieu".data "".data "fin".data ∧
    countOccs hdrWell (ensure_section_headers (sepInput varWellPts varImproveNl2 varOverallBilan
      "Intro:".data " milieu".data "".data "fin".data)) = 1 ∧
    countOccs hdrImprove (ensure_section_headers (sepInput varWellPts varImproveNl2 varOverallBilan
      "Intro:".data " milieu".data "".data "fin".data)) = 1 ∧
    countOccs hdrOverall (ensure_section_headers (sepInput varWellPts varImproveNl2 varOverallBilan
      "Intro:".data " milieu".data "".data "fin".data)) = 1 :=
  normalize_canonical_once varWellPts varImproveNl2 varOverallBilan
    "Intro:".data " milieu".data "".data "fin".data
    (by decide) (by decide) (by decide) (by decide) (by decide) (by decide) (by decide)

/-- Claim C2 (counterexample): the Header Normalizer is not idempotent.  On
`cex2`, the first pass leaves a French WellDone variant in the text (its own
canonical header was present, then got swallowed by the lazy match of the Improve
match), and the second pass substitutes it, changing the text again. -/
theorem normalize_not_idempotent :
    ensure_section_headers (ensure_section_headers cex2) ≠ ensure_section_headers cex2 := by
  decide

/-- Claim C2 (amended): the Header Normalizer is idempotent on every text in
which each header is settled after one pass, i.e. in `normalize t` each
canonical string of the header is present or none of the patterns of that header
matches.  (Unconditional idempotence fails: see the counterexample.) -/
theorem normalize_idempotent_of_settled (t : List Char)
    (h : ∀ f ∈ header_fixes, headerSettled f (ensure_section_headers t) = true) :
    ensure_section_headers (ensure_section_headers t) = ensure_section_headers t := by
  have h1 := h fix1 (by simp [header_fixes])
  have h2 := h fix2 (by simp [header_fixes])
  have h3 := h fix3 (by simp [header_fixes])
  conv_lhs => rw [ensure_section_headers, header_fixes]
  simp only [List.foldl]
  rw [applyFix_settled fix1 _ h1, applyFix_settled fix2 _ h2, applyFix_settled fix3 _ h3]

/-- Witness for the amended C2 theorem at a concrete settled text. -/
theorem normalize_idempotent_of_settled_witness :
    ensure_section_headers (ensure_section_headers "x".data) = ensure_section_headers "x".data :=
  normalize_idempotent_of_settled "x".data (by decide)

/-- Claim C3: for any target language other than French or Dutch,
`translate_feedback` returns the input unchanged and makes zero calls to the
external generative service. -/
theorem translate_unsupported_language_noop (svc : List Char → List Char)
    (text lang : List Char) (hF : lang ≠ "French".data) (hD : lang ≠ "Dutch".data) :
    translate_feedback svc text lang = (text, 0) := by
  rw [translate_feedback, if_neg hF, if_neg hD]

/-- Witness for C3: target language German, identity service. -/
theorem translate_unsupported_language_noop_witness :
    translate_feedback (fun s => s) "hello".data "German".data = ("hello".data, 0) :=
  translate_unsupported_language_noop (fun s => s) "hello".data "German".data
    (by decide) (by decide)

/-- Claim C4 (counterexample): the assembled document never contains a
"Client: " metadata line: the four labels are Name/Date/Reviewer/Status, and
the client name is not even an input of `create_review_document`. -/
theorem no_client_metadata_line :
    ((create_review_document "".data "".data "".data "".data "".data).all
      (fun p => p.runs.all (fun r => !(r.text == "Client: ".data)))) = true := by
  decide

/-- Claim C4 (amended): for any inputs, including empty strings, the four
metadata lines sit at positions 3-6 of the document, each a bold Lato 11pt
red label run ("Name: ", "Date: ", "Reviewer: ", "Status: ") followed by a
plain purple value run holding the field value (possibly empty); the lines
are never omitted. -/
theorem metadata_lines_always_emitted (sn rd rn st ft : List Char) :
    (create_review_document sn rd rn st ft)[3]? = some ⟨ParaStyle.normal, none,
        [⟨"Name: ".data, true, FONT_NAME, HEADING_SIZE, DocColor.red⟩,
         ⟨sn, false, FONT_NAME, BODY_SIZE, DocColor.purple⟩]⟩ ∧
    (create_review_document sn rd rn st ft)[4]? = some ⟨ParaStyle.normal, none,
        [⟨"Date: ".data, true, FONT_NAME, HEADING_SIZE, DocColor.red⟩,
         ⟨rd, false, FONT_NAME, BODY_SIZE, DocColor.purple⟩]⟩ ∧
    (create_review_document sn rd rn st ft)[5]? = some ⟨ParaStyle.normal, none,
        [⟨"Reviewer: ".data, true, FONT_NAME, HEADING_SIZE, DocColor.red⟩,
         ⟨rn, false, FONT_NAME, BODY_SIZE, DocColor.purple⟩]⟩ ∧
    (create_review_document sn rd rn st ft)[6]? = some ⟨ParaStyle.normal, none,
        [⟨"Status: ".data, true, FONT_NAME, HEADING_SIZE, DocColor.red⟩,
         ⟨st, false, FONT_NAME, BODY_SIZE, DocColor.purple⟩]⟩ :=
  ⟨rfl, rfl, rfl, rfl⟩

/-- Claim C5: a line that reaches the Overall branch (no earlier header text
in it, Overall marker present) and contains a colon with non-blank text after
it makes the assembler emit the spacer, the canonical Overall heading, and
immediately a body paragraph holding the stripped text after the first
colon. -/
theorem overall_inline_content (raw : List Char) (sec : Sect)
    (hW : (containsSub "**What you did well**".data (pyStrip raw)
        || containsSub "What you did well".data (pyStrip raw)) = false)
    (hI : (containsSub "**What you could do differently".data (pyStrip raw)
        || containsSub "What you could do differently".data (pyStrip raw)) = false)
    (hO : (containsSub "**Overall**".data (pyStrip raw)
        || isPre "Overall".data (pyStrip raw)) = true)
    (hC : (pyStrip raw).contains ':' = true)
    (hNE : (pyStrip (afterFirstColon (pyStrip raw))).isEmpty = false) :
    processLine raw sec =
      ([spacerPara, headingPara "Overall", bodyPara (pyStrip (afterFirstColon (pyStrip raw)))],
        Sect.overall) := by
  have hne : (pyStrip raw).isEmpty = false := by
    cases hl : pyStrip raw with
    | nil => rw [hl] at hO; exact absurd hO (by decide)
    | cons c rest => rfl
  rw [processLine]
  simp only [hne, hW, hI, hO, hC, hNE, Bool.false_eq_true, if_false, if_true]

/-- Witness for C5 at the concrete line from the spec. -/
theorem overall_inline_content_witness :
    processLine "**Overall**: Great session overall!".data Sect.start =
      ([spacerPara, headingPara "Overall", bodyPara "Great session overall!".data],
        Sect.overall) :=
  overall_inline_content "**Overall**: Great session overall!".data Sect.start
    (by decide) (by decide) (by decide) (by decide) (by decide)

/-- Claim C6: the bullet line "- **Nice work** on timing" is emitted as a
bulleted List-Bullet paragraph whose text is "Nice work on timing", with the
marker and the bold markup removed. -/
theorem bullet_strip_example (sn rd rn st : List Char) :
    create_review_document sn rd rn st "- **Nice work** on timing".data =
      fixedHead sn rd rn st ++
        [⟨ParaStyle.listBullet, none,
          [⟨"Nice work on timing".data, false, FONT_NAME, BODY_SIZE, DocColor.purple⟩]⟩] := rfl

/-- Claim C7 (counterexample): the line "- What you did well today" starts
with a bullet marker, yet the assembler emits the WellDone heading paragraph
for it (header detection runs before bullet detection) and produces no
bulleted paragraph at all. -/
theorem bullet_line_header_precedence :
    create_review_document "".data "".data "".data "".data "- What you did well today".data =
      fixedHead "".data "".data "".data "".data ++ [headingPara "What you did well"] ∧
    ∀ p ∈ create_review_document "".data "".data "".data "".data "- What you did well today".data,
      p.style ≠ ParaStyle.listBullet := by
  constructor
  · rfl
  · decide

/-- Claim C7 (amended): a line starting with a bullet marker that contains
none of the header marker texts is emitted as a bulleted List-Bullet body
paragraph with the marker stripped and bold markup removed, independent of
the current section state. -/
theorem bullet_line_emits_bullet (raw : List Char) (sec : Sect)
    (hB : isBulletStart (pyStrip raw) = true)
    (hW : (containsSub "**What you did well**".data (pyStrip raw)
        || containsSub "What you did well".data (pyStrip raw)) = false)
    (hI : (containsSub "**What you could do differently".data (pyStrip raw)
        || containsSub "What you could do differently".data (pyStrip raw)) = false)
    (hOv : containsSub "**Overall**".data (pyStrip raw) = false) :
    processLine raw sec =
      ([bulletPara (removeBold (pyStrip ((pyStrip raw).drop 2)))], sec) := by
  have hne : (pyStrip raw).isEmpty = false := by
    cases hl : pyStrip raw with
    | nil => rw [hl] at hB; exact absurd hB (by decide)
    | cons c rest => rfl
  have hOs : isPre "Overall".data (pyStrip raw) = false := by
    cases hl : pyStrip raw with
    | nil => rw [hl] at hB; exact absurd hB (by decide)
    | cons c rest =>
      rw [hl] at hB
      by_contra hcon
      rw [Bool.not_eq_false] at hcon
      have hcO : c = 'O' := by
        have hx : isPre ('O' :: "verall".data) (c :: rest) = true := hcon
        rw [isPre, Bool.and_eq_true, beq_iff_eq] at hx
        exact hx.1.symm
      subst hcO
      have hz : isBulletStart ('O' :: rest) = false := rfl
      rw [hz] at hB
      exact Bool.false_ne_true hB
  rw [processLine]
  simp only [hne, hW, hI, hOv, hOs, hB, Bool.false_eq_true, Bool.or_self, if_false, if_true]

/-- Witness for the amended C7 theorem: a bullet line processed while in the
WellDone section. -/
theorem bullet_line_emits_bullet_witness :
    processLine "• Nice pacing".data Sect.well =
      ([bulletPara "Nice pacing".data], Sect.well) :=
  bullet_line_emits_bullet "• Nice pacing".data Sect.well
    (by decide) (by decide) (by decide) (by decide)

/-- Claim C8: the six-line mocked generative response assembles into the
fixed head followed by, in order: the WellDone heading, one bullet, a spacer,
the Improve heading, one bullet, a spacer, the Overall heading, and the
closing body paragraph. -/
theorem end_to_end_document (sn rd rn st : List Char) :
    create_review_document sn rd rn st
        ("**What you did well**\n- Nice work reassuring the client at the start.\n**What you could do differently next time**\n- Try to slow down the ending.\n**Overall**\nSolid session with room to tighten pacing.").data =
      fixedHead sn rd rn st ++
        [headingPara "What you did well",
         bulletPara "Nice work reassuring the client at the start.".data,
         spacerPara,
         headingPara "What you could do differently next time",
         bulletPara "Try to slow down the ending.".data,
         spacerPara,
         headingPara "Overall",
         bodyPara "Solid session with room to tighten pacing.".data] := rfl

/-- Claim C9: inline Overall content keeps its bold markup: the line
"Overall: **great** work" emits the Overall heading and then a body paragraph
whose text is exactly "**great** work" (the `**` characters are not removed,
unlike bullet lines and overall-section body lines). -/
theorem overall_inline_keeps_bold :
    (∀ sn rd rn st : List Char,
      create_review_document sn rd rn st "Overall: **great** work".data =
        fixedHead sn rd rn st ++
          [spacerPara, headingPara "Overall", bodyPara "**great** work".data]) ∧
    containsSub "**".data "**great** work".data = true :=
  ⟨fun _ _ _ _ => rfl, by decide⟩

/-- Blank lines emit nothing and leave the section state unchanged. -/
theorem processLines_blank : ∀ (ls : List (List Char)) (sec : Sect),
    (∀ l ∈ ls, (pyStrip l).isEmpty = true) → processLines ls sec = []
  | [], _, _ => rfl
  | l :: ls, sec, h => by
    have hl : (pyStrip l).isEmpty = true := h l (List.mem_cons_self l ls)
    have hpl : processLine l sec = ([], sec) := by
      rw [processLine]
      simp only [hl, if_true]
    rw [processLines, hpl]
    simp only [List.nil_append]
    exact processLines_blank ls sec (fun x hx => h x (List.mem_cons_of_mem l hx))

/-- Claim C10: when every line of the feedback text is blank, the assembled
document is exactly the masthead, the title, a spacer, the four metadata
lines, and the closing spacer - no feedback-derived paragraphs. -/
theorem empty_feedback_fixed_head (sn rd rn st ft : List Char)
    (h : ∀ l ∈ splitLines ft, (pyStrip l).isEmpty = true) :
    create_review_document sn rd rn st ft =
      [mastheadPara, titlePara, spacerPara,
       metaPara "Name: " sn, metaPara "Date: " rd,
       metaPara "Reviewer: " rn, metaPara "Status: " st, spacerPara] := by
  rw [create_review_document, processLines_blank _ _ h, List.append_nil]
  rfl

/-- Witness for C10 at whitespace-only feedback text. -/
theorem empty_feedback_fixed_head_witness :
    create_review_document "".data "".data "".data "".data " \n\t\n".data =
      [mastheadPara, titlePara, spacerPara,
       metaPara "Name: " "".data, metaPara "Date: " "".data,
       metaPara "Reviewer: " "".data, metaPara "Status: " "".data, spacerPara] :=
  empty_feedback_fixed_head "".data "".data "".data "".data " \n\t\n".data (by decide)

end CPReviewer
